import Mathlib

/-!
Verification of the lumberjack-python-sdk specification against a shallow
embedding of the SDK source.

Each section embeds one Python module (function by function, keeping the
source structure and its quirks), and the theorems at the end settle the
frozen claims C1..C10 about the SDK.

Conventions of the embedding:
  * Python `None`/falsy-truthy behaviour is carried by an explicit `PyVal`
    type with a `truthy` function.
  * Fallible Python code is embedded in `Except PyExn`.
  * Times are rationals (seconds); machine floats never matter for the
    claims being settled (only comparisons and truthiness of 0.0).
  * Network and RPC calls are nondeterministic: the per-attempt outcome is
    an explicit input to the embedded function.
-/

set_option maxRecDepth 4096

/-! ## Python value model -/

/-- Exceptions that the embedded code can raise. -/
inductive PyExn where
  | attributeError
  | typeError
  | valueError
  deriving DecidableEq, Repr

/-- Python scalar values as they appear in the SDK code paths under study.
Booleans are kept separate from ints, but `isinstance(value, int)` is true
for booleans in Python, which the embedding reproduces where it matters. -/
inductive PyVal where
  | none
  | int (n : Int)
  | bool (b : Bool)
  | float (q : Rat)
  | str (s : String)
  | datetime (iso : String)
  | other
  deriving DecidableEq, Repr

/-- Python truthiness for `PyVal`. -/
def PyVal.truthy : PyVal → Bool
  | .none => false
  | .int n => n != 0
  | .bool b => b
  | .float q => q != 0
  | .str s => s != ""
  | .datetime _ => true
  | .other => true

/-! ## Python string primitives

Character-level implementations of the Python string methods the SDK
uses (`strip`, `lower`, `replace`, `split`, `int()`), faithful on the
ASCII inputs of these code paths. -/

/-- Python whitespace (`str.strip()` default set / regex `\s`, ASCII). -/
def isPyWsChar (c : Char) : Bool :=
  c = ' ' ∨ c = '\t' ∨ c = '\n' ∨ c = '\x0d' ∨ c = '\x0b' ∨ c = '\x0c'

/-- `str.strip()`. -/
def pyStrip (s : String) : String :=
  String.mk (((s.data.dropWhile isPyWsChar).reverse.dropWhile
    isPyWsChar).reverse)

/-- `str.lower()`. -/
def pyLower (s : String) : String := String.mk (s.data.map Char.toLower)

/-- `str.replace(pat, repl)`: all non-overlapping occurrences, scanning
left to right; the fuel is an upper bound on the input length. -/
def replaceAllAux (pat repl : List Char) : Nat → List Char → List Char
  | 0, l => l
  | _ + 1, [] => []
  | fuel + 1, c :: cs =>
    if pat ≠ [] ∧ List.isPrefixOf pat (c :: cs) then
      repl ++ replaceAllAux pat repl fuel (List.drop pat.length (c :: cs))
    else c :: replaceAllAux pat repl fuel cs

/-- `str.replace(pat, repl)`. -/
def pyReplace (s pat repl : String) : String :=
  String.mk (replaceAllAux pat.data repl.data s.data.length s.data)

/-- `str.split(',')` at the character level. -/
def splitOnCommaAux : List Char → List (List Char)
  | [] => [[]]
  | c :: cs =>
    match splitOnCommaAux cs with
    | [] => [[]]
    | g :: gs => if c = ',' then [] :: g :: gs else (c :: g) :: gs

/-- `str.split(',')`. -/
def pySplitOnComma (s : String) : List String :=
  (splitOnCommaAux s.data).map String.mk

/-- Decimal digits to a number, requiring at least one digit. -/
def digitsToNat : List Char → Option Nat
  | [] => Option.none
  | l =>
    if l.all Char.isDigit then
      some (l.foldl (fun acc c => acc * 10 + (c.toNat - 48)) 0)
    else Option.none

/-- Python `int(s)`: optional surrounding whitespace, optional sign,
decimal digits. (Underscore separators are not modelled.) -/
def pyParseInt (s : String) : Option Int :=
  match (pyStrip s).data with
  | '-' :: ds => (digitsToNat ds).map (fun n => -(n : Int))
  | '+' :: ds => (digitsToNat ds).map (fun n => (n : Int))
  | ds => (digitsToNat ds).map (fun n => (n : Int))

/-! ## Severity mapping (otel_log.py and the two exporter families)

`_get_otel_severity_number` from `otel_log.py`, `_severity_to_level` from
`exporters.py` (`LumberjackLogExporter`), and `_map_severity_to_level` from
`otel_exporters.py` (`LumberjackLogExporter`). -/

/-- `otel_log._get_otel_severity_number`: level string to OTEL severity
number, defaulting to 9 (INFO). -/
def getOtelSeverityNumber (level : String) : Int :=
  if level = "trace" then 1
  else if level = "debug" then 5
  else if level = "info" then 9
  else if level = "warning" then 13
  else if level = "error" then 17
  else if level = "critical" then 21
  else 9

/-- `exporters.LumberjackLogExporter._severity_to_level`: severity-number
bucketing of the REST exporter family (upward cascade of `<=` tests,
`None` mapped to "info"). -/
def restSeverityToLevel (severityNumber : Option Int) : String :=
  match severityNumber with
  | Option.none => "info"
  | some n =>
    if n ≤ 4 then "trace"
    else if n ≤ 8 then "debug"
    else if n ≤ 12 then "info"
    else if n ≤ 16 then "warning"
    else if n ≤ 20 then "error"
    else "critical"

/-- `otel_exporters.LumberjackLogExporter._map_severity_to_level`:
severity-number bucketing of the OTEL-native exporter family (downward
cascade of `>=` tests; note there is no branch for FATAL/critical). -/
def otelMapSeverityToLevel (severityNumber : Option Int) : String :=
  match severityNumber with
  | Option.none => "info"
  | some n =>
    if n ≥ 17 then "error"
    else if n ≥ 13 then "warning"
    else if n ≥ 9 then "info"
    else if n ≥ 5 then "debug"
    else "trace"

/-- The six Lumberjack log levels, in severity order. -/
def lumberjackLevels : List String :=
  ["trace", "debug", "info", "warning", "error", "critical"]

/-! ## REST exporter retry loop (exporters.py / otel_exporters.py `_send_logs`)

The delivery loop is
```
max_retries = 3
delay = 1
for attempt in range(max_retries):
    try:
        response = requests.post(...)
        if response.ok:
            ...; return result
        else:
            sdk_logger.warning(...)
    except Exception as e:
        sdk_logger.error(...)
    time.sleep(delay)
sdk_logger.error("All attempts to send logs failed.")
```
The outcome of the i-th `requests.post` call (and of parsing its body) is
nondeterministic and therefore an input, one entry per attempt. -/

/-- Outcome of one `requests.post` delivery attempt. `okBody` carries the
parsed `updated_config` config version, when the response body has one;
`okBadBody` is an ok response whose `response.json()` (or the update
callback) raises, which the `except` arm turns into a failed attempt. -/
inductive HttpAttempt where
  | okBody (updatedConfigVersion : Option Int)
  | okBadBody
  | httpError (status : Nat)
  | transportExn
  deriving DecidableEq, Repr

/-- Observable trace of one `_send_logs` call. `sleepsSeconds` lists every
`time.sleep` performed, in order; `configUpdates` the invocations of the
`update_callback`; `allFailedLogged` whether the terminal
"All attempts ... failed." error was logged. -/
structure SendTrace where
  attemptsMade : Nat
  sleepsSeconds : List Nat
  configUpdates : List Int
  allFailedLogged : Bool
  deriving DecidableEq, Repr

/-- The retry loop shared verbatim by `exporters.LumberjackExporter._send_logs`
(and `_send_objects` / `_send_spans`). `outcomes i` is what the i-th attempt
does. The body of the loop can only raise inside the `try`, where every
exception is caught; the statements outside it (`sdk_logger.*`,
`time.sleep`) do not raise. -/
def sendLoopAux (outcomes : Nat → HttpAttempt) (delay : Nat) :
    Nat → Nat → SendTrace → Except PyExn SendTrace
  | 0, _, tr => .ok { tr with allFailedLogged := true }
  | remaining + 1, attempt, tr =>
    match outcomes attempt with
    | .okBody cfg =>
      -- response.ok: debug log, parse body, maybe update config, return
      .ok { tr with
              attemptsMade := tr.attemptsMade + 1,
              configUpdates := tr.configUpdates ++ cfg.toList }
    | .okBadBody =>
      -- response.ok but response.json() raised: caught, sleep, retry
      sendLoopAux outcomes delay remaining (attempt + 1)
        { tr with attemptsMade := tr.attemptsMade + 1,
                  sleepsSeconds := tr.sleepsSeconds ++ [delay] }
    | .httpError _ =>
      -- non-ok response: warning logged, sleep, retry
      sendLoopAux outcomes delay remaining (attempt + 1)
        { tr with attemptsMade := tr.attemptsMade + 1,
                  sleepsSeconds := tr.sleepsSeconds ++ [delay] }
    | .transportExn =>
      -- exception from requests.post: caught, error logged, sleep, retry
      sendLoopAux outcomes delay remaining (attempt + 1)
        { tr with attemptsMade := tr.attemptsMade + 1,
                  sleepsSeconds := tr.sleepsSeconds ++ [delay] }

/-- `exporters.LumberjackExporter._send_logs`: max_retries = 3, delay = 1 s. -/
def lumberjackExporterSendLogs (outcomes : Nat → HttpAttempt) :
    Except PyExn SendTrace :=
  sendLoopAux outcomes 1 3 0 ⟨0, [], [], false⟩

/-- `otel_exporters.LumberjackLogExporter._send_logs`: the same loop with the
same constants (max_retries = 3, delay = 1 s). -/
def otelLogExporterSendLogs (outcomes : Nat → HttpAttempt) :
    Except PyExn SendTrace :=
  sendLoopAux outcomes 1 3 0 ⟨0, [], [], false⟩

/-- An attempt outcome that counts as a failed delivery attempt in the sense
of the claim (non-ok HTTP response or transport exception). -/
def HttpAttempt.isFailure : HttpAttempt → Bool
  | .httpError _ => true
  | .transportExn => true
  | .okBadBody => true
  | .okBody _ => false

/-! ## Local development server exporter (local_server/local_exporter.py)

`LocalServerLogExporter` keeps `_otlp_exporter` (possibly `None`),
`_last_failure_time`, `_consecutive_failures` and `_is_available`.
Time stamps are rationals standing for `time.time()` seconds. The outcome
of each underlying `self._otlp_exporter.export(batch)` call is an input. -/

/-- Outcome of one underlying OTLP GRPC export attempt:
`success` is `LogExportResult.SUCCESS`; `failureResult` a non-SUCCESS
return value (logged, no counter change); `grpcError` a raised
`grpc.RpcError`; `otherError` any other raised exception (both increment
`_consecutive_failures`). -/
inductive OtlpAttempt where
  | success
  | failureResult
  | grpcError
  | otherError
  deriving DecidableEq, Repr

/-- `LogExportResult` of the exporter interface. -/
inductive LogExportResult where
  | success
  | failure
  deriving DecidableEq, Repr

/-- Mutable state of one `LocalServerLogExporter` instance.
`hasExporter` is whether `_otlp_exporter` is not `None`. -/
structure LocalExporterState where
  hasExporter : Bool
  lastFailureTime : Rat
  consecutiveFailures : Nat
  isAvailable : Bool
  deriving DecidableEq, Repr

/-- Result of one `export` call: the returned `LogExportResult`, the new
state, and how many underlying OTLP delivery attempts were made. -/
structure LocalExportOutcome where
  result : LogExportResult
  state : LocalExporterState
  deliveryAttempts : Nat
  deriving DecidableEq, Repr

/-- `LocalServerLogExporter._handle_export_failure`: stamp the failure time
and mark unavailable once `_consecutive_failures >= 5`. -/
def handleExportFailure (now : Rat) (s : LocalExporterState) :
    LocalExporterState :=
  let s := { s with lastFailureTime := now }
  if s.consecutiveFailures ≥ 5 then { s with isAvailable := false } else s

/-- `LocalServerLogExporter._handle_unavailable`: after the cooldown
`min(300, 30 + consecutive_failures * 10)` seconds have elapsed since the
last failure, re-enable, reset the counter and re-initialize the OTLP
client (`reinitOk` is whether `_initialize_exporter` managed to build one);
in every case return SUCCESS so the pipeline is never blocked. -/
def handleUnavailable (now : Rat) (reinitOk : Bool)
    (s : LocalExporterState) : LogExportResult × LocalExporterState :=
  let cooldownPeriod : Rat := min 300 (30 + (s.consecutiveFailures : Rat) * 10)
  if now - s.lastFailureTime > cooldownPeriod then
    let s := { s with isAvailable := true, consecutiveFailures := 0,
                      hasExporter := reinitOk }
    -- with or without a freshly initialized exporter, the call reports
    -- SUCCESS (the export itself is not attempted on this call)
    (.success, s)
  else
    (.success, s)

/-- The retry loop inside `LocalServerLogExporter.export`: up to
`max_retries + 1` attempts; a success resets the failure counter; raised
errors increment it and back off (the backoff sleep has no effect on the
state); a plain non-SUCCESS result neither increments nor sleeps. -/
def localExportLoop (outcomes : Nat → OtlpAttempt) (now : Rat) :
    Nat → Nat → Nat → LocalExporterState → LocalExportOutcome
  | 0, _, made, s => ⟨.failure, handleExportFailure now s, made⟩
  | remaining + 1, attempt, made, s =>
    match outcomes attempt with
    | .success =>
      ⟨.success, { s with consecutiveFailures := 0, isAvailable := true },
        made + 1⟩
    | .failureResult =>
      localExportLoop outcomes now remaining (attempt + 1) (made + 1) s
    | .grpcError =>
      localExportLoop outcomes now remaining (attempt + 1) (made + 1)
        { s with consecutiveFailures := s.consecutiveFailures + 1 }
    | .otherError =>
      localExportLoop outcomes now remaining (attempt + 1) (made + 1)
        { s with consecutiveFailures := s.consecutiveFailures + 1 }

/-- `LocalServerLogExporter.export` with the default `max_retries = 3`:
skip straight to `_handle_unavailable` when marked unavailable or when no
OTLP client exists, otherwise run the retry loop and on exhaustion
`_handle_export_failure`. -/
def localServerExport (outcomes : Nat → OtlpAttempt) (now : Rat)
    (reinitOk : Bool) (maxRetries : Nat) (s : LocalExporterState) :
    LocalExportOutcome :=
  if ¬ s.isAvailable ∨ ¬ s.hasExporter then
    let (r, s) := handleUnavailable now reinitOk s
    ⟨r, s, 0⟩
  else
    localExportLoop outcomes now (maxRetries + 1) 0 0 s

/-! ## Sensitive-data masking (otel_log.py `OTelLog.mask_sensitive_data`)

```
masked_terms = {'password'}
pattern = re.compile(
    r"(?P<db>[a-z\+]+)://(?P<user>[a-zA-Z0-9_-]+):(?P<pw>[a-zA-Z0-9_]+)"
    r"@(?P<host>[\.a-zA-Z0-9_-]+):(?P<port>\d+)")

def mask_sensitive_data(text):
    for term in masked_terms:
        if term.lower() in text.lower():
            text = re.sub(r"(password[quote]?\s*[:=]\s*[quote]?)"
                          r"([^quotes\s,rbrace]+)", r"\1***", text, flags=I)
    text = pattern.sub(r"\g<db>://\g<user>:***@\g<host>:\g<port>", text)
    return text
```
Both regexes only use greedy quantifiers over character classes that
exclude the literal that follows them, so Python backtracking search is
equivalent to deterministic maximal munch, which is what the embedding
implements (one scanner per pattern, scanning left to right and resuming
after the end of each replacement, exactly like `re.sub`). The inputs of
the claims are ASCII, where Python case folding agrees with
`Char.toLower`. -/

/-- ASCII double or single quote (the two characters of the regex class). -/
def isQuoteChar (c : Char) : Bool := c.toNat = 34 ∨ c.toNat = 39

/-- The class of the masked-value group: any character other than a quote,
whitespace, a comma or a closing brace. -/
def isMaskValueChar (c : Char) : Bool :=
  ¬ isQuoteChar c ∧ ¬ isPyWsChar c ∧ c ≠ ',' ∧ c.toNat ≠ 125

/-- The letters of the one masked term. -/
def passwordChars : List Char := ['p', 'a', 's', 's', 'w', 'o', 'r', 'd']

/-- Case-insensitive prefix test (both sides folded to lowercase). -/
def beginsLower (w : List Char) (l : List Char) : Bool :=
  (l.take w.length).map Char.toLower = w

/-- `w.lower() in text.lower()`: case-insensitive substring test. -/
def containsLower (w : List Char) : List Char → Bool
  | [] => decide (w = [])
  | c :: cs => beginsLower w (c :: cs) ∨ containsLower w cs

/-- One attempted match of the term pattern
`(password[quote]?\s*[:=]\s*[quote]?)([^quotes\s,rbrace]+)` at the head of
`l` (case-insensitive on the term). On success, returns the group-1 text
(kept verbatim by the `\1***` replacement) and the rest of the input after
group 2. -/
def matchTermAt (l : List Char) : Option (List Char × List Char) :=
  let pre := l.take 8
  if pre.length = 8 ∧ pre.map Char.toLower = passwordChars then
    let rest0 := l.drop 8
    let (q1, rest1) :=
      match rest0 with
      | c :: cs => if isQuoteChar c then ([c], cs) else ([], rest0)
      | [] => ([], rest0)
    let ws1 := rest1.takeWhile isPyWsChar
    match rest1.drop ws1.length with
    | c :: cs =>
      if c = ':' ∨ c = '=' then
        let ws2 := cs.takeWhile isPyWsChar
        let rest3 := cs.drop ws2.length
        let (q2, rest4) :=
          match rest3 with
          | d :: ds => if isQuoteChar d then ([d], ds) else ([], rest3)
          | [] => ([], rest3)
        let g2 := rest4.takeWhile isMaskValueChar
        if g2 = [] then none
        else some (pre ++ q1 ++ ws1 ++ [c] ++ ws2 ++ q2, rest4.drop g2.length)
      else none
    | [] => none
  else none

/-- `re.sub` scan for the term pattern: left to right, non-overlapping,
resuming after each match; `\1***` keeps group 1 and masks group 2.
The fuel is an upper bound on the input length (every step consumes at
least one character). -/
def termSubAux : Nat → List Char → List Char
  | 0, l => l
  | _ + 1, [] => []
  | fuel + 1, c :: cs =>
    match matchTermAt (c :: cs) with
    | some (g1, rest) => g1 ++ ['*', '*', '*'] ++ termSubAux fuel rest
    | none => c :: termSubAux fuel cs

/-- Character class `[a-z\+]` of the connection-string scheme. -/
def isSchemeChar (c : Char) : Bool :=
  (97 ≤ c.toNat ∧ c.toNat ≤ 122) ∨ c = '+'

/-- Character class `[a-zA-Z0-9_-]` of the connection-string user. -/
def isUserChar (c : Char) : Bool :=
  c.isAlpha ∨ c.isDigit ∨ c = '_' ∨ c = '-'

/-- Character class `[a-zA-Z0-9_]` of the connection-string password. -/
def isPwChar (c : Char) : Bool := c.isAlpha ∨ c.isDigit ∨ c = '_'

/-- Character class `[\.a-zA-Z0-9_-]` of the connection-string host. -/
def isHostChar (c : Char) : Bool :=
  c.isAlpha ∨ c.isDigit ∨ c = '_' ∨ c = '-' ∨ c = '.'

/-- One attempted match of the connection-string pattern at the head of
`l`. On success, returns the replacement
`\g<db>://\g<user>:***@\g<host>:\g<port>` and the rest of the input. -/
def matchUrlAt (l : List Char) : Option (List Char × List Char) :=
  let db := l.takeWhile isSchemeChar
  if db = [] then none else
  match l.drop db.length with
  | ':' :: '/' :: '/' :: r2 =>
    let user := r2.takeWhile isUserChar
    if user = [] then none else
    match r2.drop user.length with
    | ':' :: r3 =>
      let pw := r3.takeWhile isPwChar
      if pw = [] then none else
      match r3.drop pw.length with
      | '@' :: r4 =>
        let host := r4.takeWhile isHostChar
        if host = [] then none else
        match r4.drop host.length with
        | ':' :: r5 =>
          let port := r5.takeWhile Char.isDigit
          if port = [] then none else
          some (db ++ [':', '/', '/'] ++ user ++ [':', '*', '*', '*', '@']
                  ++ host ++ [':'] ++ port,
                r5.drop port.length)
        | _ => none
      | _ => none
    | _ => none
  | _ => none

/-- `pattern.sub` scan for the connection-string pattern (same shape as
`termSubAux`). -/
def urlSubAux : Nat → List Char → List Char
  | 0, l => l
  | _ + 1, [] => []
  | fuel + 1, c :: cs =>
    match matchUrlAt (c :: cs) with
    | some (repl, rest) => repl ++ urlSubAux fuel rest
    | none => c :: urlSubAux fuel cs

/-- `OTelLog.mask_sensitive_data`: the guarded term pass for the single
masked term, then the connection-string pass. -/
def maskSensitiveData (s : String) : String :=
  let t := s.data
  let t1 := if containsLower passwordChars t then termSubAux t.length t else t
  String.mk (urlSubAux t1.length t1)

/-! ## Span API (otel_span.py) over a model of the OTEL SDK span

The OTEL SDK span (`opentelemetry.sdk.trace._Span`) that `otel_span.py`
drives: `is_recording()` is `end_time is None`; `end()` on an ended span
is ignored; `set_status` ignores any change once the status code is OK
("status ok is final"); attribute/event mutators on an ended span are
ignored. `timesEnded` counts the transitions into the ended state, so
"ended exactly once" is expressible. -/

/-- OTEL status codes. -/
inductive OStatusCode where
  | unset
  | ok
  | error
  deriving DecidableEq, Repr

/-- An OTEL `Status`: code plus optional description. -/
structure OStatus where
  code : OStatusCode
  message : Option String
  deriving DecidableEq, Repr

/-- Events recorded on a span: plain events and exception events (from
`record_exception`, which stores the exception and the escaped flag). -/
inductive SpanEvent where
  | event (name : String)
  | excEvent (exn : String) (escaped : Bool)
  deriving DecidableEq, Repr

/-- Model of one OTEL SDK span. -/
structure MSpan where
  ended : Bool
  timesEnded : Nat
  status : OStatus
  events : List SpanEvent
  attrs : List (String × String)
  deriving DecidableEq, Repr

/-- A freshly started span: recording, status UNSET, nothing recorded. -/
def MSpan.fresh : MSpan := ⟨false, 0, ⟨.unset, Option.none⟩, [], []⟩

/-- `Span.is_recording()`. -/
def MSpan.isRecording (s : MSpan) : Bool := ¬ s.ended

/-- OTEL `Span.end()`: ignored on an already ended span. -/
def MSpan.endIt (s : MSpan) : MSpan :=
  if s.ended then s else { s with ended := true, timesEnded := s.timesEnded + 1 }

/-- OTEL `Span.set_status`: ignored once the status is OK. (The callers in
`otel_span.py` only invoke it on recording spans.) -/
def MSpan.setStatus (s : MSpan) (st : OStatus) : MSpan :=
  if s.status.code = .ok then s else { s with status := st }

/-- OTEL `Span.set_attribute` as exercised through the SDK: the callers in
`otel_span.py` guard with `is_recording()`, so only the recording-span
behaviour is ever exercised; the model still reproduces the ended-span
no-op of the OTEL SDK. -/
def MSpan.setAttr (s : MSpan) (k v : String) : MSpan :=
  if s.ended then s else { s with attrs := s.attrs ++ [(k, v)] }

/-- OTEL `Span.add_event` (same guard remark as `MSpan.setAttr`). -/
def MSpan.addEvent (s : MSpan) (n : String) : MSpan :=
  if s.ended then s else { s with events := s.events ++ [.event n] }

/-- OTEL `Span.record_exception`. -/
def MSpan.recordExc (s : MSpan) (e : String) (escaped : Bool) : MSpan :=
  if s.ended then s else { s with events := s.events ++ [.excEvent e escaped] }

/-- `otel_span.end_span`: only acts when the target span is recording;
optionally maps and sets a Lumberjack status first, then ends. -/
def endSpanFn (status : Option OStatus) (s : MSpan) : MSpan :=
  if s.isRecording then
    (match status with
     | some st => s.setStatus st
     | Option.none => s).endIt
  else s

/-- `otel_span.set_span_attribute`: no-op unless the span is recording. -/
def setSpanAttributeFn (k v : String) (s : MSpan) : MSpan :=
  if s.isRecording then s.setAttr k v else s

/-- `otel_span.add_span_event`: no-op unless the span is recording. -/
def addSpanEventFn (n : String) (s : MSpan) : MSpan :=
  if s.isRecording then s.addEvent n else s

/-- `otel_span.record_exception_on_span` with code-snippet capture data
already extracted (`frameAttrs` stands for the `exception.frames.<i>.*`
attributes the snippet extractor produces; the claims do not depend on
their values): records the exception event, attaches the frame attributes,
then sets the span status to error with `str(exception)`. No-op unless the
span is recording. -/
def recordExceptionOnSpanFn (e : String) (escaped : Bool)
    (frameAttrs : List (String × String)) (s : MSpan) : MSpan :=
  if ¬ s.isRecording then s
  else
    let s := s.recordExc e escaped
    let s := frameAttrs.foldl (fun t kv => t.setAttr kv.1 kv.2) s
    s.setStatus ⟨.error, some e⟩

/-- The operations a `with span_context(...)` body can perform on the
yielded span through the `otel_span` API. -/
inductive BodyOp where
  | setAttr (k v : String)
  | addEvent (n : String)
  | endIt (status : Option OStatus)
  | setStat (st : OStatus)
  deriving DecidableEq, Repr

/-- Apply one body operation through the corresponding `otel_span`
function (`set_span_attribute`, `add_span_event`, `end_span`) or the raw
OTEL `set_status`. -/
def applyBodyOp (s : MSpan) : BodyOp → MSpan
  | .setAttr k v => setSpanAttributeFn k v s
  | .addEvent n => addSpanEventFn n s
  | .endIt st => endSpanFn st s
  | .setStat st => s.setStatus st

/-- Exit of OTEL `use_span` (driving `tracer.start_as_current_span` with
its defaults `record_exception=True, set_status_on_exception=True,
end_on_exit=True`) when the body raised `e`: if the span is still
recording, record the exception and set an error status, then end it. -/
def otelUseSpanExitExn (e : String) (s : MSpan) : MSpan :=
  (if s.isRecording then
    (s.recordExc e false).setStatus ⟨.error, some e⟩
   else s).endIt

/-- `otel_span.span_context`: start a span, run the body (a list of
operations, then either a normal return or a raised exception), on an
exception record it per `record_exception` and re-raise, and always leave
through the OTEL context manager, which ends the span. Returns the final
span and the propagated exception, if any. -/
def spanContextRun (recordException : Bool) (ops : List BodyOp)
    (exn : Option String) (frameAttrs : List (String × String)) :
    MSpan × Option String :=
  let s := ops.foldl applyBodyOp MSpan.fresh
  match exn with
  | Option.none => (s.endIt, Option.none)
  | some e =>
    let s :=
      if recordException then recordExceptionOnSpanFn e true frameAttrs s
      else s.setStatus ⟨.error, some e⟩
    (otelUseSpanExitExn e s, some e)

/-! ## Association-list model of Python dicts -/

/-- `d[k] = v` on an insertion-ordered dict. -/
def dictSet {κ α : Type} [DecidableEq κ] : List (κ × α) → κ → α → List (κ × α)
  | [], k, v => [(k, v)]
  | (k', v') :: rest, k, v =>
    if k' = k then (k, v) :: rest else (k', v') :: dictSet rest k v

/-- `d.get(k)` on an insertion-ordered dict. -/
def dictGet {κ α : Type} [DecidableEq κ] : List (κ × α) → κ → Option α
  | [], _ => Option.none
  | (k', v') :: rest, k => if k' = k then some v' else dictGet rest k

/-- `k in d`. -/
def dictHas {κ α : Type} [DecidableEq κ] (d : List (κ × α)) (k : κ) : Bool :=
  (dictGet d k).isSome

/-! ## Object formatting and registry (otel_core.py / otel_registry.py) -/

/-- A raw value handed to `register_object`: either a mapping, or an
arbitrary object. For an object, `className` is `__class__.__name__`
(every Python object has one), `attrs` is its `__dict__` / `vars()` view
(`none` when the object has neither, in which case `vars()` raises the
`TypeError` that `_format_object` catches), `canSetAttr` whether
`value._kwarg_key = key` is possible (false for ints, strings, and other
primitives, where that assignment raises `AttributeError`), and
`kwargKey` the `_kwarg_key` attribute, when previously set. -/
inductive RawObj where
  | dict (entries : List (String × PyVal))
  | obj (className : String) (attrs : Option (List (String × PyVal)))
      (canSetAttr : Bool) (kwargKey : Option String)
  deriving DecidableEq, Repr

/-- The shape `_format_object` produces. -/
structure FormattedObj where
  name : Option String
  id : PyVal
  fields : List (String × PyVal)
  deriving DecidableEq, Repr

/-- `OTelLumberjack._format_field`: keep numbers and booleans as they are
(Python booleans pass the `isinstance(value, (int, float))` test), render
datetimes via `isoformat()`, keep strings of at most 1024 characters with
no newline or carriage return, and drop everything else by returning
`None`. The `key` parameter is unused, as in the source. -/
def formatField (_key : String) (value : PyVal) : PyVal :=
  match value with
  | .int n => .int n
  | .float q => .float q
  | .bool b => .bool b
  | .datetime iso => .str iso
  | .str s =>
    if s.length ≤ 1024 then
      if ¬ s.data.contains '\n' ∧ ¬ s.data.contains '\x0d' then .str s
      else .none
    else .none
  | _ => .none

/-- The field-validation loop of `OTelLumberjack._format_object`: skip the
`name` and `id` keys, keep a field exactly when its `_format_field` result
is truthy (`if field_value:`). -/
def formatObjectFields (entries acc : List (String × PyVal)) :
    List (String × PyVal) :=
  entries.foldl
    (fun acc kv =>
      if kv.1 = "name" ∨ kv.1 = "id" then acc
      else
        let fieldValue := formatField kv.1 kv.2
        if fieldValue.truthy then acc ++ [(kv.1, fieldValue)] else acc)
    acc

/-- `OTelLumberjack._format_object`: convert the raw input to a dict
(warning and `None` when introspection fails), require an `id` key
(warning and `None` when absent), derive `name` from the class name or the
`_kwarg_key`, and keep the fields whose `_format_field` result is truthy
(keys `name` and `id` excluded). -/
def formatObject (objData : RawObj) : Option FormattedObj :=
  let converted : Option (Option String × List (String × PyVal)) :=
    match objData with
    | .dict entries => some (Option.none, entries)
    | .obj className attrs _ _ =>
      match attrs with
      | some entries => some (some className, entries)
      | Option.none => Option.none  -- TypeError from vars(): logged, skipped
  match converted with
  | Option.none => Option.none
  | some (className, objDict) =>
    if ¬ dictHas objDict "id" then
      Option.none  -- warning: object registered without an id field
    else
      let name0 : Option String := className.map pyLower
      let name : Option String :=
        if (name0.getD "") = "" then
          match objData with
          | .obj _ _ _ (some kw) => some (pyLower kw)
          | _ => name0
        else name0
      let objId := (dictGet objDict "id").getD .none
      some ⟨name, objId, formatObjectFields objDict []⟩

/-- State of the `OTelObjectRegistry` plus the ambient pieces
`attach_to_context` touches: the logging-context key/value map and the
current span, when one is active. -/
structure RegistryState where
  objects : List (PyVal × FormattedObj)
  contextObjects : List (String × List PyVal)
  ambientCtx : List (String × PyVal)
  currentSpan : Option MSpan
  deriving DecidableEq, Repr

/-- The empty registry with no ambient context and no active span. -/
def RegistryState.empty : RegistryState := ⟨[], [], [], Option.none⟩

/-- `OTelObjectRegistry.register_object`: drop objects whose `id` is falsy,
otherwise store under the id and append the id (once) to the list of the
current trace context, when there is a truthy current trace id. -/
def registryRegisterObject (currentTraceId : Option String)
    (f : FormattedObj) (st : RegistryState) : RegistryState :=
  if ¬ f.id.truthy then st
  else
    let st := { st with objects := dictSet st.objects f.id f }
    match currentTraceId with
    | some tid =>
      if tid = "" then st
      else
        let ids := (dictGet st.contextObjects tid).getD []
        if f.id ∈ ids then st
        else { st with
                 contextObjects := dictSet st.contextObjects tid (ids ++ [f.id]) }
    | Option.none => st

/-- `OTelObjectRegistry.get_objects_for_context`: ids recorded for the
trace id (the argument, defaulting to the current trace id), resolved
through the object table. -/
def getObjectsForContext (currentTraceId : Option String)
    (traceId : Option String) (st : RegistryState) : List FormattedObj :=
  let tid := match traceId with
    | some t => some t
    | Option.none => currentTraceId
  match tid with
  | Option.none => []
  | some t =>
    if t = "" then []
    else
      ((dictGet st.contextObjects t).getD []).filterMap
        (fun oid => dictGet st.objects oid)

/-- `OTelObjectRegistry.attach_to_context`: register, then for backward
compatibility set the ambient context key `<name>_id` to the id and stamp
a `lb_register.<name>_id` span attribute when a recording span is active
(both only when name and id are truthy). -/
def attachToContext (currentTraceId : Option String) (f : FormattedObj)
    (st : RegistryState) : RegistryState :=
  let st := registryRegisterObject currentTraceId f st
  -- object_name = formatted_obj.get('name', ''); object_id = ...get('id', '')
  -- both keys are always present, so the defaults are never used
  let objectId := f.id
  match f.name with
  | some nm =>
    if nm ≠ "" ∧ objectId.truthy then
      let contextKey := nm ++ "_id"
      let st := { st with ambientCtx := dictSet st.ambientCtx contextKey objectId }
      match st.currentSpan with
      | some sp =>
        if sp.isRecording then
          let sp := sp.setAttr ("lb_register." ++ contextKey) (toString (repr objectId))
          { st with currentSpan := some sp }
        else st
      | Option.none => st
    else st
  | Option.none => st

/-- `OTelLumberjack.register_object`: warn and return when the manager is
not initialized; with a positional object, format and attach it; with
keyword arguments, set `_kwarg_key` on every non-dict value (which raises
`AttributeError` for values that do not support attribute assignment),
then format and attach each value. -/
def coreRegisterObject (initialized : Bool) (currentTraceId : Option String)
    (obj : Option RawObj) (kwargs : List (String × RawObj))
    (st : RegistryState) : Except PyExn RegistryState :=
  if ¬ initialized then .ok st  -- warning: not initialized, skipped
  else
    match obj with
    | some o =>
      .ok (match formatObject o with
           | some f => attachToContext currentTraceId f st
           | Option.none => st)
    | Option.none =>
      if kwargs = [] then .ok st  -- warning: nothing provided
      else
        kwargs.foldlM
          (fun acc kv =>
            match kv.2 with
            | .dict entries =>
              .ok (match formatObject (.dict entries) with
                   | some f => attachToContext currentTraceId f acc
                   | Option.none => acc)
            | .obj cn attrs canSet _ =>
              if ¬ canSet then .error PyExn.attributeError
              else
                .ok (match formatObject (.obj cn attrs canSet (some kv.1)) with
                     | some f => attachToContext currentTraceId f acc
                     | Option.none => acc))
          st

/-! ## Core lifecycle manager (otel_core.py `OTelLumberjack`) -/

/-- The default endpoint constant of otel_core.py. -/
def DEFAULT_API_URL : String := "https://lumberjack.dev/api/v1/logs/batch"

/-- Default flush interval in seconds (`DEFAULT_FLUSH_INTERVAL` from
internal_utils/flush_timer.py; per the spec the constant is 30 seconds). -/
def DEFAULT_FLUSH_INTERVAL : Rat := 30

/-- The `LUMBERJACK_*` environment variables read by `init`. -/
structure CoreEnv where
  apiKey : Option String := Option.none
  apiUrl : Option String := Option.none
  captureStdout : Option String := Option.none
  logToStdout : Option String := Option.none
  stdoutLogLevel : Option String := Option.none
  capturePythonLogger : Option String := Option.none
  pythonLoggerLevel : Option String := Option.none
  pythonLoggerName : Option String := Option.none
  debugMode : Option String := Option.none
  flushInterval : Option String := Option.none
  codeSnippetEnabled : Option String := Option.none
  codeSnippetContextLines : Option String := Option.none
  codeSnippetMaxFrames : Option String := Option.none
  codeSnippetExcludePatterns : Option String := Option.none
  installSignalHandlers : Option String := Option.none
  deriving DecidableEq, Repr

/-- The keyword arguments of `OTelLumberjack.init`. `batch_size` and
`batch_age` appear in the signature but are never read by the body, and
`otel_format` is documented as ignored; they are omitted. -/
structure InitArgs where
  apiKey : Option String := Option.none
  endpoint : Option String := Option.none
  projectName : Option String := Option.none
  captureStdout : Option Bool := Option.none
  logToStdout : Option Bool := Option.none
  stdoutLogLevel : Option String := Option.none
  capturePythonLogger : Option Bool := Option.none
  pythonLoggerLevel : Option String := Option.none
  pythonLoggerName : Option String := Option.none
  flushInterval : Option Rat := Option.none
  debugMode : Option Bool := Option.none
  codeSnippetEnabled : Option Bool := Option.none
  codeSnippetContextLines : Option Int := Option.none
  codeSnippetMaxFrames : Option Int := Option.none
  codeSnippetExcludePatterns : Option (List String) := Option.none
  installSignalHandlers : Option Bool := Option.none
  deriving DecidableEq, Repr

/-- The mutable state of the `OTelLumberjack` singleton, together with the
module-level `_signal_handlers_installed` flag. Provider/exporter/timer
handles are tracked by presence. Fields that Python resolves to either a
boolean or an environment string keep the `PyVal` distinction, since the
code later branches on their truthiness. -/
structure CoreState where
  apiKey : Option String
  endpoint : String
  objectsEndpoint : String
  spansEndpoint : String
  projectName : Option String
  usingFallback : Bool
  captureStdout : PyVal
  logToStdout : PyVal
  stdoutLogLevel : String
  capturePythonLogger : PyVal
  pythonLoggerLevel : String
  pythonLoggerName : Option String
  debugMode : Bool
  flushInterval : PyVal
  codeSnippetEnabled : Bool
  codeSnippetContextLines : Int
  codeSnippetMaxFrames : Int
  codeSnippetExcludePatterns : List String
  tracerProvider : Bool
  loggerProvider : Bool
  spanExporter : Bool
  logExporter : Bool
  stdoutOverrideEnabled : Bool
  pythonForwardingEnabled : Bool
  signalHandlersInstalled : Bool
  flushTimer : Bool
  initialized : Bool
  deriving DecidableEq, Repr

/-- `OTelLumberjack.__init__`: the instance-variable defaults. -/
def CoreState.fresh : CoreState where
  apiKey := Option.none
  endpoint := DEFAULT_API_URL
  objectsEndpoint := ""
  spansEndpoint := ""
  projectName := Option.none
  usingFallback := true
  captureStdout := .bool true
  logToStdout := .bool false
  stdoutLogLevel := "INFO"
  capturePythonLogger := .bool true
  pythonLoggerLevel := "DEBUG"
  pythonLoggerName := Option.none
  debugMode := false
  flushInterval := .float DEFAULT_FLUSH_INTERVAL
  codeSnippetEnabled := true
  codeSnippetContextLines := 5
  codeSnippetMaxFrames := 20
  codeSnippetExcludePatterns := ["site-packages", "venv", "__pycache__"]
  tracerProvider := false
  loggerProvider := false
  spanExporter := false
  logExporter := false
  stdoutOverrideEnabled := false
  pythonForwardingEnabled := false
  signalHandlersInstalled := false
  flushTimer := false
  initialized := false

/-- `OTelLumberjack.reset`: clear the initialized flag and stop the flush
timer. -/
def coreReset (s : CoreState) : CoreState :=
  { s with initialized := false, flushTimer := false }

/-- `api_key if api_key else os.getenv(...)` followed by
`self._api_key.strip() if self._api_key else None` (Python truthiness:
an empty string falls through to the environment, and an empty resolved
key is normalized to `None`; note that a whitespace-only key strips to the
empty string and is kept). -/
def resolveApiKey (arg : Option String) (env : CoreEnv) : Option String :=
  let k0 := match arg with
    | some k => if k ≠ "" then some k else env.apiKey
    | Option.none => env.apiKey
  match k0 with
  | some k => if k ≠ "" then some (pyStrip k) else Option.none
  | Option.none => Option.none

/-- Python `int(s)` over a decimal environment string (raises `ValueError`
when unparsable). -/
def pyInt (s : String) : Except PyExn Int :=
  match pyParseInt s with
  | some n => .ok n
  | Option.none => .error .valueError

/-- The comma-separated exclude-pattern list of the environment:
`[p.strip() for p in env.split(',') if p.strip()]`. -/
def parseExcludePatterns (s : String) : List String :=
  ((pySplitOnComma s).map pyStrip).filter (fun p => p ≠ "")

/-- `OTelLumberjack._initialize_otel`: providers are created
unconditionally; the Lumberjack exporters only when not falling back. -/
def initializeOtel (s : CoreState) : CoreState :=
  let s := { s with tracerProvider := true, loggerProvider := true }
  if ¬ s.usingFallback then { s with spanExporter := true, logExporter := true }
  else s

/-- Resolution of a bool-or-env setting such as `capture_stdout`:
`arg if arg is not None else os.getenv(NAME, default)` (the environment
value stays a string; the missing-variable default is a boolean). -/
def resolveBoolEnv (arg : Option Bool) (envVal : Option String)
    (dflt : Bool) : PyVal :=
  match arg with
  | some b => .bool b
  | Option.none =>
    match envVal with
    | some v => .str v
    | Option.none => .bool dflt

/-- `init` lines 204-209: `if self._capture_stdout:` enable the stdout
override (the fallback-logger level set there is not part of the state). -/
def enableStdoutStep (captureStdout : PyVal) (s : CoreState) : CoreState :=
  if captureStdout.truthy then { s with stdoutOverrideEnabled := true } else s

/-- `init` lines 211-223: `if self._capture_python_logger:` enable the
Python-logger forwarding. -/
def enablePythonLoggerStep (capturePythonLogger : PyVal) (s : CoreState) :
    CoreState :=
  if capturePythonLogger.truthy then { s with pythonForwardingEnabled := true }
  else s

/-- `init` lines 225-228 plus `_install_signal_handlers`: install once,
process-wide. -/
def installSignalHandlersStep (installHandlers : Bool) (s : CoreState) :
    CoreState :=
  if installHandlers then { s with signalHandlersInstalled := true } else s

/-- `init` lines 230-233: start the flush timer when there is none. -/
def startFlushTimerStep (s : CoreState) : CoreState :=
  if ¬ s.flushTimer then { s with flushTimer := true } else s

/-- The body of `OTelLumberjack.init` after the early-return check
(otel_core.py lines 164-235): resolve each setting from the call argument,
the environment, or the default; derive the sibling endpoints; initialize
the providers; enable the capture hooks; install the signal handlers; and
start the flush timer. -/
def coreFullSetup (s : CoreState) (a : InitArgs) (env : CoreEnv) :
    Except PyExn CoreState := do
  let apiKey : Option String := resolveApiKey a.apiKey env
  let endpoint : String := match a.endpoint with
    | some e => if e ≠ "" then e else env.apiUrl.getD DEFAULT_API_URL
    | Option.none => env.apiUrl.getD DEFAULT_API_URL
  let captureStdout : PyVal := resolveBoolEnv a.captureStdout env.captureStdout true
  let logToStdout : PyVal := resolveBoolEnv a.logToStdout env.logToStdout false
  let stdoutLogLevel : String := a.stdoutLogLevel.getD (env.stdoutLogLevel.getD "INFO")
  let capturePythonLogger : PyVal :=
    resolveBoolEnv a.capturePythonLogger env.capturePythonLogger true
  let pythonLoggerLevel : String :=
    a.pythonLoggerLevel.getD (env.pythonLoggerLevel.getD "DEBUG")
  let pythonLoggerName : Option String := match a.pythonLoggerName with
    | some v => some v
    | Option.none => env.pythonLoggerName
  let debugMode : Bool := match a.debugMode with
    | some b => b
    | Option.none => match env.debugMode with
      | some v => pyLower v = "true"
      | Option.none => false
  let flushInterval : PyVal := match a.flushInterval with
    | some q => .float q
    | Option.none => match env.flushInterval with
      | some v => .str v
      | Option.none => .float DEFAULT_FLUSH_INTERVAL
  let codeSnippetEnabled : Bool := match a.codeSnippetEnabled with
    | some b => b
    | Option.none => pyLower (env.codeSnippetEnabled.getD "true") = "true"
  let contextLines : Int ← match a.codeSnippetContextLines with
    | some n => Except.ok n
    | Option.none => pyInt (env.codeSnippetContextLines.getD "5")
  let maxFrames : Int ← match a.codeSnippetMaxFrames with
    | some n => Except.ok n
    | Option.none => pyInt (env.codeSnippetMaxFrames.getD "20")
  let excludePatterns : List String := match a.codeSnippetExcludePatterns with
    | some l => l
    | Option.none => parseExcludePatterns
        (env.codeSnippetExcludePatterns.getD "site-packages,venv,__pycache__")
  let usingFallback : Bool := apiKey.getD "" = ""
  let installHandlers : Bool := match a.installSignalHandlers with
    | some b => b
    | Option.none => pyLower (env.installSignalHandlers.getD "true") = "true"
  let s : CoreState := { s with
    apiKey := apiKey
    endpoint := endpoint
    objectsEndpoint := pyReplace endpoint "/logs/batch" "/objects/register"
    spansEndpoint := pyReplace endpoint "/logs/batch" "/spans/batch"
    captureStdout := captureStdout
    logToStdout := logToStdout
    stdoutLogLevel := stdoutLogLevel
    capturePythonLogger := capturePythonLogger
    pythonLoggerLevel := pythonLoggerLevel
    pythonLoggerName := pythonLoggerName
    debugMode := debugMode
    flushInterval := flushInterval
    codeSnippetEnabled := codeSnippetEnabled
    codeSnippetContextLines := contextLines
    codeSnippetMaxFrames := maxFrames
    codeSnippetExcludePatterns := excludePatterns
    usingFallback := usingFallback }
  let s : CoreState := initializeOtel s
  let s : CoreState := enableStdoutStep captureStdout s
  let s : CoreState := enablePythonLoggerStep capturePythonLogger s
  let s : CoreState := installSignalHandlersStep installHandlers s
  let s : CoreState := startFlushTimerStep s
  return { s with initialized := true }

/-- `OTelLumberjack.init`: a supplied `project_name` (tested against
`None`, not for emptiness) first resets and overwrites the project name;
then, if still initialized, return unchanged; otherwise run the full
setup. -/
def coreInit (s : CoreState) (a : InitArgs) (env : CoreEnv) :
    Except PyExn CoreState :=
  let s := match a.projectName with
    | some p => { coreReset s with projectName := some p }
    | Option.none => s
  if s.initialized then .ok s
  else coreFullSetup s a env

/-! ## Legacy core lifecycle manager with no-op mode (core.py)

The repository also ships a legacy `Lumberjack` manager (core.py, the
default implementation behind the migration shim) whose `init` computes a
tri-state operating mode; that module is exercised by
tests/test_noop_mode.py. -/

/-- Modelled from the spec: the settings of `Lumberjack.init` (core.py,
module not present under src/) that decide the operating mode — the API
key, the local-server flag, and the three custom exporters (§4.1, §8.3,
§8.4 of the spec). -/
structure LegacySettings where
  apiKey : Option String := Option.none
  localServerEnabled : Option Bool := Option.none
  customLogExporter : Bool := false
  customSpanExporter : Bool := false
  customMetricsExporter : Bool := false
  deriving DecidableEq, Repr

/-- Modelled from the spec: an API key counts as absent when it is
missing, empty, or whitespace-only (§4.1: "no API key, including
empty/whitespace-only strings treated as absent"). -/
def legacyApiKeyBlank (k : Option String) : Bool :=
  pyStrip (k.getD "") = ""

/-- Modelled from the spec: the no-op decision of §4.1 — no-op exactly
when the local server is disabled or unset, the API key is absent, and no
custom exporter is supplied. -/
def legacyIsNoop (s : LegacySettings) : Bool :=
  legacyApiKeyBlank s.apiKey
    ∧ s.localServerEnabled ≠ some true
    ∧ ¬ s.customLogExporter ∧ ¬ s.customSpanExporter
    ∧ ¬ s.customMetricsExporter

/-- Modelled from the spec: the component handles `Lumberjack.init`
constructs (§4.1: in no-op mode, no tracer/logger/meter providers, no
flush timer, no signal handlers, no stdout/host-logger capture, no
exception handlers). -/
structure LegacyState where
  isNoop : Bool
  tracerProvider : Bool
  loggerProvider : Bool
  meterProvider : Bool
  flushTimer : Bool
  signalHandlersInstalled : Bool
  exceptionHandlersRegistered : Bool
  stdoutCaptureEnabled : Bool
  hostLoggerCaptureEnabled : Bool
  objectRegistration : Bool
  deriving DecidableEq, Repr

/-- Modelled from the spec: `Lumberjack.init` (core.py) — decide the
operating mode; in no-op mode construct nothing, otherwise build the
providers, the flush timer and (when requested) the handlers and capture
hooks. -/
def legacyInit (s : LegacySettings) (installSignalHandlers : Bool)
    (captureStdout : Bool) (captureHostLogger : Bool) : LegacyState :=
  if legacyIsNoop s then
    ⟨true, false, false, false, false, false, false, false, false, false⟩
  else
    { isNoop := false
      tracerProvider := true
      loggerProvider := true
      meterProvider := true
      flushTimer := true
      signalHandlersInstalled := installSignalHandlers
      exceptionHandlersRegistered := true
      stdoutCaptureEnabled := captureStdout
      hostLoggerCaptureEnabled := captureHostLogger
      objectRegistration := true }

/-- Modelled from the spec: `Lumberjack.flush` returns the number of
providers successfully flushed (§4.1), hence zero when none exist. -/
def legacyFlush (st : LegacyState) : Nat :=
  (if st.tracerProvider then 1 else 0) + (if st.loggerProvider then 1 else 0)
    + (if st.meterProvider then 1 else 0)

/-- Modelled from the spec: a capability call (`register_object`,
`shutdown`, a log/span/metric emission) in no-op mode performs no work and
never raises (§7: no-op-mode calls are defined behaviour). -/
def legacyCapabilityCall (st : LegacyState) : Except PyExn LegacyState :=
  .ok st

/-- The formatted object `_format_object` produces for a mapping payload
that has an `id` key: no class name, the `id` value, the validated
fields. -/
def dictFormatted (entries : List (String × PyVal)) : FormattedObj :=
  ⟨Option.none, (dictGet entries "id").getD .none, formatObjectFields entries []⟩

/-! ## Helper lemmas -/

/-- Maximal munch over a block whose characters all satisfy `p`, stopped by
a failing delimiter. -/
theorem takeWhile_block (p : Char → Bool) :
    ∀ (xs : List Char) (y : Char) (ys : List Char),
      (∀ c ∈ xs, p c = true) → p y = false →
      List.takeWhile p (xs ++ y :: ys) = xs := by
  intro xs y ys hall hy
  induction xs with
  | nil => simp [List.takeWhile, hy]
  | cons c cs ih =>
    have hc : p c = true := hall c (by simp)
    simp only [List.cons_append, List.takeWhile, hc]
    have := ih (fun d hd => hall d (by simp [hd]))
    simp [this]

/-- Maximal munch over a block that runs to the end of the input. -/
theorem takeWhile_all (p : Char → Bool) :
    ∀ (xs : List Char), (∀ c ∈ xs, p c = true) → List.takeWhile p xs = xs := by
  intro xs hall
  induction xs with
  | nil => rfl
  | cons c cs ih =>
    have hc : p c = true := hall c (by simp)
    simp only [List.takeWhile, hc]
    simp [ih (fun d hd => hall d (by simp [hd]))]

/-- Reading back the key just written into a dict. -/
theorem dictGet_dictSet_self {κ α : Type} [DecidableEq κ]
    (d : List (κ × α)) (k : κ) (v : α) : dictGet (dictSet d k v) k = some v := by
  induction d with
  | nil => simp [dictSet, dictGet]
  | cons kv rest ih =>
    by_cases h : kv.1 = k
    · simp [dictSet, dictGet, h]
    · simp [dictSet, dictGet, h, ih]

/-- In a dict with no duplicate keys, a key determines its value. -/
theorem nodupKeys_eq {α : Type} (l : List (String × α))
    (hnd : (l.map Prod.fst).Nodup) {k : String} {v w : α}
    (hv : (k, v) ∈ l) (hw : (k, w) ∈ l) : v = w := by
  induction l with
  | nil => cases hv
  | cons kv rest ih =>
    simp only [List.map_cons, List.nodup_cons] at hnd
    rcases List.mem_cons.1 hv with h1 | h1 <;>
      rcases List.mem_cons.1 hw with h2 | h2
    · have h3 : (k, v) = (k, w) := h1.trans h2.symm
      exact (Prod.mk.injEq _ _ _ _ ▸ h3 : _ ∧ _).2
    · exfalso
      apply hnd.1
      have hmem : (k, w).1 ∈ rest.map Prod.fst := List.mem_map_of_mem Prod.fst h2
      rw [← h1]
      exact hmem
    · exfalso
      apply hnd.1
      have hmem : (k, v).1 ∈ rest.map Prod.fst := List.mem_map_of_mem Prod.fst h1
      rw [← h2]
      exact hmem
    · exact ih hnd.2 h1 h2

/-- A key whose every occurrence is skipped or fails validation or is
falsy never enters the formatted fields. -/
theorem formatObjectFields_not_mem (k : String) :
    ∀ (entries acc : List (String × PyVal)),
      (∀ v, (k, v) ∈ entries →
        k = "name" ∨ k = "id" ∨ (formatField k v).truthy = false) →
      (∀ w, (k, w) ∉ acc) →
      ∀ w, (k, w) ∉ formatObjectFields entries acc := by
  intro entries
  induction entries with
  | nil => intro acc _ hacc w; exact hacc w
  | cons kv rest ih =>
    intro acc hall hacc w
    simp only [formatObjectFields, List.foldl_cons]
    by_cases hskip : kv.1 = "name" ∨ kv.1 = "id"
    · simp only [hskip, if_pos]
      exact ih acc (fun v hv => hall v (List.mem_cons_of_mem _ hv)) hacc w
    · simp only [hskip, if_neg, if_false]
      by_cases htru : (formatField kv.1 kv.2).truthy = true
      · simp only [htru, if_pos]
        refine ih _ (fun v hv => hall v (List.mem_cons_of_mem _ hv)) ?_ w
        intro w' hw'
        rcases List.mem_append.1 hw' with h | h
        · exact hacc w' h
        · have hk : kv.1 = k := by
            have := List.mem_singleton.1 h
            exact (congrArg Prod.fst this).symm
          rcases hall kv.2 (by rw [← hk]; exact List.mem_cons_self _ _) with
            h1 | h1 | h1
          · exact hskip (Or.inl (hk.trans h1))
          · exact hskip (Or.inr (hk.trans h1))
          · rw [hk] at htru; rw [htru] at h1; cases h1
      · simp only [Bool.not_eq_true] at htru
        simp only [htru, if_false]
        exact ih acc (fun v hv => hall v (List.mem_cons_of_mem _ hv)) hacc w

/-- After `registryRegisterObject` with a truthy id and a truthy trace id,
the object is stored under its id and the id is recorded for the trace. -/
theorem registryRegisterObject_stores (tid : String) (f : FormattedObj)
    (st : RegistryState) (htru : f.id.truthy = true) (htid : tid ≠ "") :
    dictGet (registryRegisterObject (some tid) f st).objects f.id = some f ∧
      f.id ∈ ((dictGet (registryRegisterObject (some tid) f st).contextObjects
                tid).getD []) := by
  unfold registryRegisterObject
  simp only [htru, not_true, Bool.not_true, Bool.false_eq_true, if_false,
    htid, reduceIte]
  by_cases hmem : f.id ∈ (dictGet st.contextObjects tid).getD []
  · simp only [hmem, if_pos]
    exact ⟨dictGet_dictSet_self _ _ _, trivial⟩
  · simp only [hmem, if_neg, if_false]
    refine ⟨dictGet_dictSet_self _ _ _, ?_⟩
    rw [dictGet_dictSet_self]
    simp

/-- `attachToContext` leaves the object table and the per-trace id lists
exactly as `registryRegisterObject` left them (it only touches the ambient
context and the current span). -/
theorem attachToContext_registry (ctid : Option String) (f : FormattedObj)
    (st : RegistryState) :
    (attachToContext ctid f st).objects =
        (registryRegisterObject ctid f st).objects ∧
      (attachToContext ctid f st).contextObjects =
        (registryRegisterObject ctid f st).contextObjects := by
  unfold attachToContext
  cases hn : f.name with
  | none => exact ⟨rfl, rfl⟩
  | some nm =>
    dsimp only
    split
    · split
      · split
        · exact ⟨rfl, rfl⟩
        · exact ⟨rfl, rfl⟩
      · exact ⟨rfl, rfl⟩
    · exact ⟨rfl, rfl⟩

/-- The at-most-once end invariant of a span. -/
def spanEndedOnce (s : MSpan) : Prop :=
  (s.ended = false ∧ s.timesEnded = 0) ∨ (s.ended = true ∧ s.timesEnded = 1)

theorem spanEndedOnce_fresh : spanEndedOnce MSpan.fresh := Or.inl ⟨rfl, rfl⟩

/-- `setAttr` only touches the attributes. -/
theorem setAttr_frame (s : MSpan) (k v : String) :
    (s.setAttr k v).ended = s.ended ∧
      (s.setAttr k v).timesEnded = s.timesEnded ∧
      (s.setAttr k v).status = s.status ∧
      (s.setAttr k v).events = s.events := by
  unfold MSpan.setAttr
  split <;> simp

/-- `setStatus` only touches the status. -/
theorem setStatus_frame (s : MSpan) (st : OStatus) :
    (s.setStatus st).ended = s.ended ∧
      (s.setStatus st).timesEnded = s.timesEnded ∧
      (s.setStatus st).events = s.events := by
  unfold MSpan.setStatus
  split <;> simp

/-- `recordExc` only touches the events. -/
theorem recordExc_frame (s : MSpan) (e : String) (esc : Bool) :
    (s.recordExc e esc).ended = s.ended ∧
      (s.recordExc e esc).timesEnded = s.timesEnded ∧
      (s.recordExc e esc).status = s.status := by
  unfold MSpan.recordExc
  split <;> simp

/-- `endIt` preserves the once-ended invariant and yields an ended span. -/
theorem endIt_once (s : MSpan) (h : spanEndedOnce s) :
    (s.endIt).ended = true ∧ (s.endIt).timesEnded = 1 := by
  unfold MSpan.endIt
  rcases h with ⟨h1, h2⟩ | ⟨h1, h2⟩ <;> simp [h1, h2]

/-- `endIt` does not change status or events. -/
theorem endIt_frame (s : MSpan) :
    (s.endIt).status = s.status ∧ (s.endIt).events = s.events := by
  unfold MSpan.endIt
  split <;> simp

/-- The frame-attribute fold of `record_exception_on_span` only touches
the attributes. -/
theorem framesFold_frame (frames : List (String × String)) :
    ∀ s : MSpan,
      (frames.foldl (fun t kv => t.setAttr kv.1 kv.2) s).ended = s.ended ∧
      (frames.foldl (fun t kv => t.setAttr kv.1 kv.2) s).timesEnded
          = s.timesEnded ∧
      (frames.foldl (fun t kv => t.setAttr kv.1 kv.2) s).status = s.status ∧
      (frames.foldl (fun t kv => t.setAttr kv.1 kv.2) s).events = s.events := by
  induction frames with
  | nil => intro s; simp
  | cons kv rest ih =>
    intro s
    simp only [List.foldl_cons]
    obtain ⟨h1, h2, h3, h4⟩ := ih (s.setAttr kv.1 kv.2)
    obtain ⟨g1, g2, g3, g4⟩ := setAttr_frame s kv.1 kv.2
    exact ⟨h1.trans g1, h2.trans g2, h3.trans g3, h4.trans g4⟩

/-- Every body operation preserves the once-ended invariant. -/
theorem applyBodyOp_once (s : MSpan) (op : BodyOp) (h : spanEndedOnce s) :
    spanEndedOnce (applyBodyOp s op) := by
  rcases h with ⟨h1, h2⟩ | ⟨h1, h2⟩
  · cases op with
    | setAttr k v =>
      simp [applyBodyOp, setSpanAttributeFn, MSpan.isRecording, h1,
        MSpan.setAttr, spanEndedOnce, h2]
    | addEvent n =>
      simp [applyBodyOp, addSpanEventFn, MSpan.isRecording, h1,
        MSpan.addEvent, spanEndedOnce, h2]
    | endIt st =>
      cases st with
      | none =>
        simp [applyBodyOp, endSpanFn, MSpan.isRecording, h1, MSpan.endIt,
          spanEndedOnce, h2]
      | some v =>
        obtain ⟨g1, g2, _⟩ := setStatus_frame s v
        simp [applyBodyOp, endSpanFn, MSpan.isRecording, h1, MSpan.endIt,
          g1, g2, spanEndedOnce, h2]
    | setStat st =>
      simp only [applyBodyOp]
      obtain ⟨g1, g2, _⟩ := setStatus_frame s st
      exact Or.inl ⟨g1.trans h1, g2.trans h2⟩
  · cases op with
    | setAttr k v =>
      simp [applyBodyOp, setSpanAttributeFn, MSpan.isRecording, h1,
        spanEndedOnce, h2]
    | addEvent n =>
      simp [applyBodyOp, addSpanEventFn, MSpan.isRecording, h1,
        spanEndedOnce, h2]
    | endIt st =>
      simp [applyBodyOp, endSpanFn, MSpan.isRecording, h1, spanEndedOnce, h2]
    | setStat st =>
      simp only [applyBodyOp]
      obtain ⟨g1, g2, _⟩ := setStatus_frame s st
      exact Or.inr ⟨g1.trans h1, g2.trans h2⟩

/-- The whole body preserves the once-ended invariant. -/
theorem bodyFold_once (ops : List BodyOp) :
    spanEndedOnce (ops.foldl applyBodyOp MSpan.fresh) := by
  have h : ∀ (l : List BodyOp) (s : MSpan), spanEndedOnce s →
      spanEndedOnce (l.foldl applyBodyOp s) := by
    intro l
    induction l with
    | nil => intro s hs; exact hs
    | cons op rest ih =>
      intro s hs
      exact ih _ (applyBodyOp_once s op hs)
  exact h ops MSpan.fresh spanEndedOnce_fresh

/-- The REST retry loop never raises: every exception is caught inside the
loop body. -/
theorem sendLoopAux_ok (outcomes : Nat → HttpAttempt) (delay : Nat) :
    ∀ (remaining attempt : Nat) (tr : SendTrace),
      ∃ r, sendLoopAux outcomes delay remaining attempt tr = .ok r := by
  intro remaining
  induction remaining with
  | zero => intro attempt tr; exact ⟨_, rfl⟩
  | succ n ih =>
    intro attempt tr
    cases h : outcomes attempt with
    | okBody cfg =>
      exact ⟨{ tr with attemptsMade := tr.attemptsMade + 1,
                       configUpdates := tr.configUpdates ++ cfg.toList },
             by simp [sendLoopAux, h]⟩
    | okBadBody => simpa [sendLoopAux, h] using ih (attempt + 1) _
    | httpError st => simpa [sendLoopAux, h] using ih (attempt + 1) _
    | transportExn => simpa [sendLoopAux, h] using ih (attempt + 1) _

/-- The local-exporter retry loop, started in an available state, ends
unavailable exactly when it ends in failure with the consecutive-failure
counter at 5 or more. -/
theorem localExportLoop_spec (outcomes : Nat → OtlpAttempt) (now : Rat) :
    ∀ (remaining attempt made : Nat) (s : LocalExporterState),
      s.isAvailable = true →
      ((localExportLoop outcomes now remaining attempt made s).state.isAvailable
          = false ↔
        ((localExportLoop outcomes now remaining attempt made s).result
            = .failure ∧
          5 ≤ (localExportLoop outcomes now remaining attempt made
                s).state.consecutiveFailures)) := by
  intro remaining
  induction remaining with
  | zero =>
    intro attempt made s hs
    simp only [localExportLoop, handleExportFailure]
    by_cases h5 : 5 ≤ s.consecutiveFailures
    · simp [h5]
    · simp [h5, hs]
  | succ n ih =>
    intro attempt made s hs
    cases h : outcomes attempt with
    | success => simp [localExportLoop, h]
    | failureResult =>
      simpa [localExportLoop, h] using ih (attempt + 1) (made + 1) s hs
    | grpcError =>
      have := ih (attempt + 1) (made + 1)
        { s with consecutiveFailures := s.consecutiveFailures + 1 } hs
      simpa [localExportLoop, h] using this
    | otherError =>
      have := ih (attempt + 1) (made + 1)
        { s with consecutiveFailures := s.consecutiveFailures + 1 } hs
      simpa [localExportLoop, h] using this

/-- On a text that is exactly one well-formed connection string, the
connection-string pattern matches the whole text, producing the
password-masked replacement. -/
theorem matchUrlAt_exact (db user pw host port : List Char)
    (hdb : db ≠ []) (huser : user ≠ []) (hpw : pw ≠ []) (hhost : host ≠ [])
    (hport : port ≠ [])
    (hdbc : ∀ c ∈ db, isSchemeChar c = true)
    (huserc : ∀ c ∈ user, isUserChar c = true)
    (hpwc : ∀ c ∈ pw, isPwChar c = true)
    (hhostc : ∀ c ∈ host, isHostChar c = true)
    (hportc : ∀ c ∈ port, Char.isDigit c = true) :
    matchUrlAt (db ++ ':' :: '/' :: '/' ::
        (user ++ ':' :: (pw ++ '@' :: (host ++ ':' :: port)))) =
      some (db ++ [':', '/', '/'] ++ user ++ [':', '*', '*', '*', '@']
              ++ host ++ [':'] ++ port, []) := by
  simp only [matchUrlAt]
  rw [takeWhile_block isSchemeChar db ':' _ hdbc (by decide)]
  simp only [hdb, if_neg, if_false]
  rw [List.drop_left]
  simp only []
  rw [takeWhile_block isUserChar user ':' _ huserc (by decide)]
  simp only [huser, if_neg, if_false]
  rw [List.drop_left]
  simp only []
  rw [takeWhile_block isPwChar pw '@' _ hpwc (by decide)]
  simp only [hpw, if_neg, if_false]
  rw [List.drop_left]
  simp only []
  rw [takeWhile_block isHostChar host ':' _ hhostc (by decide)]
  simp only [hhost, if_neg, if_false]
  rw [List.drop_left]
  simp only []
  rw [takeWhile_all Char.isDigit port hportc]
  simp only [hport, if_neg, if_false]
  rw [List.drop_length]

/-- When the pattern matches the whole input, the `re.sub` scan returns
just the replacement. -/
theorem urlSubAux_exact (fuel : Nat) (l repl : List Char)
    (h : matchUrlAt l = some (repl, [])) (hl : l ≠ []) (hf : 0 < fuel) :
    urlSubAux fuel l = repl := by
  cases fuel with
  | zero => cases hf
  | succ f =>
    cases l with
    | nil => exact absurd rfl hl
    | cons c cs =>
      simp only [urlSubAux, h]
      cases f <;> simp [urlSubAux]

/-- `setStatus` on a span whose status is not OK stores the new status. -/
theorem setStatus_of_not_ok (s : MSpan) (st : OStatus)
    (h : s.status.code ≠ .ok) : s.setStatus st = { s with status := st } := by
  unfold MSpan.setStatus
  rw [if_neg h]

/-- Reduction of `record_exception_on_span` on a recording span. -/
theorem recordExceptionOnSpanFn_of_recording (e : String) (esc : Bool)
    (frames : List (String × String)) (s : MSpan) (h : s.ended = false) :
    recordExceptionOnSpanFn e esc frames s =
      ((frames.foldl (fun t kv => t.setAttr kv.1 kv.2)
          (s.recordExc e esc)).setStatus ⟨.error, some e⟩) := by
  unfold recordExceptionOnSpanFn MSpan.isRecording
  simp [h]

/-- Reduction of the OTEL exception exit on a recording span. -/
theorem otelUseSpanExitExn_of_recording (e : String) (s : MSpan)
    (h : s.ended = false) :
    otelUseSpanExitExn e s =
      ((s.recordExc e false).setStatus ⟨.error, some e⟩).endIt := by
  unfold otelUseSpanExitExn MSpan.isRecording
  simp [h]

/-- `record_exception_on_span` on a recording span whose status is not OK:
error status with the exception message, still recording, the exception
event recorded. -/
theorem recordExceptionOnSpanFn_spec (e : String)
    (frames : List (String × String)) (s : MSpan)
    (hend : s.ended = false) (hok : s.status.code ≠ .ok) :
    (recordExceptionOnSpanFn e true frames s).status = ⟨.error, some e⟩ ∧
    (recordExceptionOnSpanFn e true frames s).ended = false ∧
    SpanEvent.excEvent e true ∈ (recordExceptionOnSpanFn e true frames s).events := by
  obtain ⟨r1, r2, r3⟩ := recordExc_frame s e true
  obtain ⟨f1, f2, f3, f4⟩ := framesFold_frame frames (s.recordExc e true)
  have h1 : (s.recordExc e true).events = s.events ++ [.excEvent e true] := by
    unfold MSpan.recordExc
    simp [hend]
  rw [recordExceptionOnSpanFn_of_recording e true frames s hend,
    setStatus_of_not_ok _ _ (by rw [f3, r3]; exact hok)]
  refine ⟨rfl, ?_, ?_⟩
  · show (frames.foldl (fun t kv => t.setAttr kv.1 kv.2)
        (s.recordExc e true)).ended = false
    rw [f1, r1, hend]
  · show SpanEvent.excEvent e true ∈ (frames.foldl (fun t kv => t.setAttr kv.1 kv.2)
        (s.recordExc e true)).events
    rw [f4, h1]
    simp

/-- The OTEL exception exit on a recording span whose status is not OK:
final error status, prior events preserved. -/
theorem otelUseSpanExitExn_spec (e : String) (s : MSpan)
    (hend : s.ended = false) (hok : s.status.code ≠ .ok) :
    (otelUseSpanExitExn e s).status = ⟨.error, some e⟩ ∧
    ∀ ev ∈ s.events, ev ∈ (otelUseSpanExitExn e s).events := by
  obtain ⟨r1, r2, r3⟩ := recordExc_frame s e false
  have h1 : (s.recordExc e false).events = s.events ++ [.excEvent e false] := by
    unfold MSpan.recordExc
    simp [hend]
  rw [otelUseSpanExitExn_of_recording e s hend,
    setStatus_of_not_ok _ _ (by rw [r3]; exact hok)]
  obtain ⟨e1, e2⟩ := endIt_frame { s.recordExc e false with
    status := (⟨.error, some e⟩ : OStatus) }
  constructor
  · rw [e1]
  · intro ev hev
    rw [e2]
    show ev ∈ (s.recordExc e false).events
    rw [h1]
    simp [hev]

/-- `recordExceptionOnSpanFn` never changes the ended flag or the end
count. -/
theorem recordExceptionOnSpanFn_frame (e : String) (esc : Bool)
    (frames : List (String × String)) (s : MSpan) :
    (recordExceptionOnSpanFn e esc frames s).ended = s.ended ∧
    (recordExceptionOnSpanFn e esc frames s).timesEnded = s.timesEnded := by
  unfold recordExceptionOnSpanFn
  split
  · exact ⟨rfl, rfl⟩
  · obtain ⟨f1, f2, _, _⟩ := framesFold_frame frames (s.recordExc e esc)
    obtain ⟨r1, r2, _⟩ := recordExc_frame s e esc
    obtain ⟨g1, g2, _⟩ :=
      setStatus_frame (frames.foldl (fun t kv => t.setAttr kv.1 kv.2)
        (s.recordExc e esc)) ⟨.error, some e⟩
    exact ⟨g1.trans (f1.trans r1), g2.trans (f2.trans r2)⟩


/-- Fields untouched by `initializeOtel`. -/
theorem initializeOtel_frame (s : CoreState) :
    (initializeOtel s).projectName = s.projectName ∧
    (initializeOtel s).apiKey = s.apiKey ∧
    (initializeOtel s).flushTimer = s.flushTimer := by
  simp only [initializeOtel]
  split <;> exact ⟨rfl, rfl, rfl⟩

/-- Fields untouched by `enableStdoutStep`. -/
theorem enableStdoutStep_frame (c : PyVal) (s : CoreState) :
    (enableStdoutStep c s).projectName = s.projectName ∧
    (enableStdoutStep c s).apiKey = s.apiKey ∧
    (enableStdoutStep c s).flushTimer = s.flushTimer := by
  simp only [enableStdoutStep]
  split <;> exact ⟨rfl, rfl, rfl⟩

/-- Fields untouched by `enablePythonLoggerStep`. -/
theorem enablePythonLoggerStep_frame (c : PyVal) (s : CoreState) :
    (enablePythonLoggerStep c s).projectName = s.projectName ∧
    (enablePythonLoggerStep c s).apiKey = s.apiKey ∧
    (enablePythonLoggerStep c s).flushTimer = s.flushTimer := by
  simp only [enablePythonLoggerStep]
  split <;> exact ⟨rfl, rfl, rfl⟩

/-- Fields untouched by `installSignalHandlersStep`. -/
theorem installSignalHandlersStep_frame (c : Bool) (s : CoreState) :
    (installSignalHandlersStep c s).projectName = s.projectName ∧
    (installSignalHandlersStep c s).apiKey = s.apiKey ∧
    (installSignalHandlersStep c s).flushTimer = s.flushTimer := by
  simp only [installSignalHandlersStep]
  split <;> exact ⟨rfl, rfl, rfl⟩

/-- `startFlushTimerStep` only (re)starts the timer. -/
theorem startFlushTimerStep_frame (s : CoreState) :
    (startFlushTimerStep s).projectName = s.projectName ∧
    (startFlushTimerStep s).apiKey = s.apiKey ∧
    (startFlushTimerStep s).flushTimer = true := by
  simp only [startFlushTimerStep]
  split
  · exact ⟨rfl, rfl, rfl⟩
  · next hneg => exact ⟨rfl, rfl, by simpa using hneg⟩

/-- Whenever the full setup succeeds, the project name is kept, the API
key is the freshly resolved one, and the manager ends initialized with the
flush timer running. -/
theorem coreFullSetup_fields (s : CoreState) (a : InitArgs) (env : CoreEnv)
    (s' : CoreState) (h : coreFullSetup s a env = .ok s') :
    s'.projectName = s.projectName ∧
    s'.apiKey = resolveApiKey a.apiKey env ∧
    s'.initialized = true ∧ s'.flushTimer = true := by
  unfold coreFullSetup at h
  simp only [bind, Except.bind] at h
  rcases hA : a.codeSnippetContextLines with _ | n <;> rw [hA] at h
  case' none =>
    rcases hP : pyInt (env.codeSnippetContextLines.getD "5") with e | cl <;>
      rw [hP] at h
    case' error => exact absurd h (by simp)
  all_goals {
    rcases hB : a.codeSnippetMaxFrames with _ | m <;> rw [hB] at h
    case' none =>
      rcases hQ : pyInt (env.codeSnippetMaxFrames.getD "20") with e | mf <;>
        rw [hQ] at h
      case' error => exact absurd h (by simp)
    all_goals {
      simp only [pure, Except.pure, Except.ok.injEq] at h
      subst h
      refine ⟨?_, ?_, rfl, ?_⟩
      · show (startFlushTimerStep _).projectName = s.projectName
        rw [(startFlushTimerStep_frame _).1, (installSignalHandlersStep_frame _ _).1,
          (enablePythonLoggerStep_frame _ _).1, (enableStdoutStep_frame _ _).1,
          (initializeOtel_frame _).1]
      · show (startFlushTimerStep _).apiKey = resolveApiKey a.apiKey env
        rw [(startFlushTimerStep_frame _).2.1, (installSignalHandlersStep_frame _ _).2.1,
          (enablePythonLoggerStep_frame _ _).2.1, (enableStdoutStep_frame _ _).2.1,
          (initializeOtel_frame _).2.1]
      · show (startFlushTimerStep _).flushTimer = true
        rw [(startFlushTimerStep_frame _).2.2]
    }
  }

/-! ## Claims -/

/-- C1: with an absent/blank API key, the local server disabled or unset,
and no custom exporters, `init` enters no-op mode: no tracer/logger/meter
providers, no flush timer, no signal or exception handlers, no capture
hooks are constructed; `flush()` returns 0; and capability calls return
without raising. (Settled against the spec-modelled legacy core, see the
definitions above.) -/
theorem spec_c1_noop_mode (s : LegacySettings)
    (installHandlers captureStdout captureHostLogger : Bool)
    (hkey : legacyApiKeyBlank s.apiKey = true)
    (hls : s.localServerEnabled ≠ some true)
    (hlog : s.customLogExporter = false)
    (hspan : s.customSpanExporter = false)
    (hmet : s.customMetricsExporter = false) :
    (legacyInit s installHandlers captureStdout captureHostLogger).isNoop = true ∧
    legacyInit s installHandlers captureStdout captureHostLogger =
      ⟨true, false, false, false, false, false, false, false, false, false⟩ ∧
    legacyFlush (legacyInit s installHandlers captureStdout captureHostLogger) = 0 ∧
    legacyCapabilityCall (legacyInit s installHandlers captureStdout captureHostLogger) =
      .ok (legacyInit s installHandlers captureStdout captureHostLogger) := by
  have hno : legacyIsNoop s = true := by
    simp [legacyIsNoop, hkey, hls, hlog, hspan, hmet]
  simp [legacyInit, hno, legacyFlush, legacyCapabilityCall]

/-- C1 witness: a whitespace-only API key with the local server explicitly
disabled, handlers and capture requested. -/
theorem spec_c1_noop_mode_witness :
    legacyApiKeyBlank (some "   ") = true ∧
    (legacyInit ⟨some "   ", some false, false, false, false⟩
        true true true).isNoop = true ∧
    legacyFlush (legacyInit ⟨some "   ", some false, false, false, false⟩
        true true true) = 0 :=
  have h := spec_c1_noop_mode ⟨some "   ", some false, false, false, false⟩
    true true true (by decide) (by decide) rfl rfl rfl
  ⟨by decide, h.1, h.2.2.1⟩

/-- C2 counterexample: the critical level maps to severity 21, but the
OTEL-native exporter bucketing (`otel_exporters.LumberjackLogExporter
._map_severity_to_level`) has no FATAL branch and returns "error", so the
round-trip fails for critical in that exporter family. -/
theorem spec_c2_critical_counterexample :
    otelMapSeverityToLevel (some (getOtelSeverityNumber "critical")) = "error" ∧
      ("error" : String) ≠ "critical" := by
  exact ⟨by decide, by decide⟩

/-- C2 (amended): the six levels map to severities 1/5/9/13/17/21; the
REST exporter bucketing round-trips all six; the OTEL-native exporter
bucketing round-trips the first five and sends critical (21) to "error". -/
theorem spec_c2_severity_roundtrip_amended :
    (getOtelSeverityNumber "trace" = 1 ∧ getOtelSeverityNumber "debug" = 5 ∧
      getOtelSeverityNumber "info" = 9 ∧ getOtelSeverityNumber "warning" = 13 ∧
      getOtelSeverityNumber "error" = 17 ∧ getOtelSeverityNumber "critical" = 21) ∧
    (∀ l ∈ lumberjackLevels,
      restSeverityToLevel (some (getOtelSeverityNumber l)) = l) ∧
    (∀ l ∈ lumberjackLevels, l ≠ "critical" →
      otelMapSeverityToLevel (some (getOtelSeverityNumber l)) = l) ∧
    otelMapSeverityToLevel (some (getOtelSeverityNumber "critical")) = "error" := by
  refine ⟨by decide, ?_, ?_, by decide⟩
  · intro l hl
    fin_cases hl <;> decide
  · intro l hl hne
    fin_cases hl <;> first | decide | exact absurd rfl hne

/-- C2 witness: the REST bucketing round-trips critical; the OTEL-native
bucketing round-trips error. -/
theorem spec_c2_severity_witness :
    restSeverityToLevel (some (getOtelSeverityNumber "critical")) = "critical" ∧
    otelMapSeverityToLevel (some (getOtelSeverityNumber "error")) = "error" :=
  ⟨spec_c2_severity_roundtrip_amended.2.1 "critical" (by decide),
   spec_c2_severity_roundtrip_amended.2.2.1 "error" (by decide) (by decide)⟩

/-- C3: the local-server exporter state machine — (a) from an available
state with a client, the call ends unavailable exactly when it ends in
failure with the consecutive-failure counter at least 5; (b) while
unavailable, every call returns success and makes no delivery attempt;
(c) the transition back to available happens exactly when more than
`min(300, 30 + 10 * consecutive-failures)` seconds have passed since the
last failure, and then the RPC client is re-initialized and the counter
reset to zero. -/
theorem spec_c3_local_circuit_breaker (outcomes : Nat → OtlpAttempt)
    (now : Rat) (reinitOk : Bool) (s : LocalExporterState) :
    (s.isAvailable = true → s.hasExporter = true →
      ((localServerExport outcomes now reinitOk 3 s).state.isAvailable = false ↔
        ((localServerExport outcomes now reinitOk 3 s).result = .failure ∧
          5 ≤ (localServerExport outcomes now reinitOk 3
                s).state.consecutiveFailures))) ∧
    (s.isAvailable = false →
      (localServerExport outcomes now reinitOk 3 s).result = .success ∧
      (localServerExport outcomes now reinitOk 3 s).deliveryAttempts = 0) ∧
    (s.isAvailable = false →
      (((localServerExport outcomes now reinitOk 3 s).state.isAvailable = true) ↔
        now - s.lastFailureTime >
          min 300 (30 + (s.consecutiveFailures : Rat) * 10)) ∧
      ((localServerExport outcomes now reinitOk 3 s).state.isAvailable = true →
        (localServerExport outcomes now reinitOk 3
            s).state.consecutiveFailures = 0 ∧
        (localServerExport outcomes now reinitOk 3 s).state.hasExporter
            = reinitOk)) := by
  refine ⟨?_, ?_, ?_⟩
  · intro h1 h2
    have : localServerExport outcomes now reinitOk 3 s =
        localExportLoop outcomes now 4 0 0 s := by
      simp [localServerExport, h1, h2]
    rw [this]
    exact localExportLoop_spec outcomes now 4 0 0 s h1
  · intro h1
    have : localServerExport outcomes now reinitOk 3 s =
        ⟨(handleUnavailable now reinitOk s).1,
          (handleUnavailable now reinitOk s).2, 0⟩ := by
      simp [localServerExport, h1]
    rw [this]
    simp only [handleUnavailable]
    split <;> exact ⟨rfl, by trivial⟩
  · intro h1
    have hred : localServerExport outcomes now reinitOk 3 s =
        ⟨(handleUnavailable now reinitOk s).1,
          (handleUnavailable now reinitOk s).2, 0⟩ := by
      simp [localServerExport, h1]
    rw [hred]
    simp only [handleUnavailable]
    split
    · next hcool => exact ⟨by simpa using hcool, fun _ => ⟨rfl, rfl⟩⟩
    · next hcool =>
      refine ⟨?_, ?_⟩
      · simp only [h1]
        constructor
        · intro hfalse; cases hfalse
        · intro hgt; exact absurd hgt (by simpa using hcool)
      · intro htrue
        rw [h1] at htrue
        cases htrue

/-- C3 witness: an available exporter whose four delivery attempts all
raise RPC errors, starting from 4 prior consecutive failures, trips the
breaker. -/
theorem spec_c3_local_circuit_breaker_witness :
    (localServerExport (fun _ => OtlpAttempt.grpcError) 100 true 3
        ⟨true, 0, 4, true⟩).state.isAvailable = false :=
  ((spec_c3_local_circuit_breaker (fun _ => OtlpAttempt.grpcError) 100 true
      ⟨true, 0, 4, true⟩).1 rfl rfl).mpr (by decide)

/-- C4: a REST-exporter batch whose every delivery attempt fails with a
non-ok response or a transport exception is attempted exactly 3 times with
a 1-second sleep after each failed attempt, then the terminal error is
logged and the batch dropped; and the send function never raises, whatever
the outcomes. Both exporter families behave identically. -/
theorem spec_c4_rest_retry (outcomes : Nat → HttpAttempt)
    (hfail : ∀ i, i < 3 → outcomes i = HttpAttempt.transportExn ∨
      ∃ st, outcomes i = HttpAttempt.httpError st) :
    lumberjackExporterSendLogs outcomes = .ok ⟨3, [1, 1, 1], [], true⟩ ∧
    otelLogExporterSendLogs outcomes = .ok ⟨3, [1, 1, 1], [], true⟩ ∧
    (∀ o : Nat → HttpAttempt, ∃ r, lumberjackExporterSendLogs o = .ok r) ∧
    (∀ o : Nat → HttpAttempt, ∃ r, otelLogExporterSendLogs o = .ok r) := by
  have h0 := hfail 0 (by decide)
  have h1 := hfail 1 (by decide)
  have h2 := hfail 2 (by decide)
  refine ⟨?_, ?_, fun o => sendLoopAux_ok o 1 3 0 _,
    fun o => sendLoopAux_ok o 1 3 0 _⟩ <;>
  · simp only [lumberjackExporterSendLogs, otelLogExporterSendLogs]
    rcases h0 with h0 | ⟨st0, h0⟩ <;> rcases h1 with h1 | ⟨st1, h1⟩ <;>
      rcases h2 with h2 | ⟨st2, h2⟩ <;>
      simp [sendLoopAux, h0, h1, h2]

/-- C4 witness: every attempt times out at the transport layer. -/
theorem spec_c4_rest_retry_witness :
    lumberjackExporterSendLogs (fun _ => HttpAttempt.transportExn)
      = .ok ⟨3, [1, 1, 1], [], true⟩ :=
  (spec_c4_rest_retry (fun _ => HttpAttempt.transportExn)
    (fun _ _ => Or.inl rfl)).1

/-- C5 counterexample: the connection string `db://password:pw@host:5432`
matches the scheme://user:pw@host:port shape (with user literally
`password`), yet masking destroys the host and port: the term pass fires
on the `password:` substring and swallows `pw@host:5432`, so the
connection-string pass no longer matches. -/
theorem spec_c5_connection_string_counterexample :
    maskSensitiveData "db://password:pw@host:5432" = "db://password:***" ∧
      maskSensitiveData "db://password:pw@host:5432" ≠
        "db://password:***@host:5432" := by
  exact ⟨by decide, by decide⟩

/-- C5 (amended): `"password: secret123"` masks to `"password: ***"`; and
every connection-string-shaped input `scheme://user:pw@host:port` that
does not itself contain the masked term `password` (case-insensitively)
has exactly its password segment replaced by `***`, with scheme, user,
host and port preserved. -/
theorem spec_c5_masking_amended :
    maskSensitiveData "password: secret123" = "password: ***" ∧
    ∀ db user pw host port : List Char,
      db ≠ [] → user ≠ [] → pw ≠ [] → host ≠ [] → port ≠ [] →
      (∀ c ∈ db, isSchemeChar c = true) →
      (∀ c ∈ user, isUserChar c = true) →
      (∀ c ∈ pw, isPwChar c = true) →
      (∀ c ∈ host, isHostChar c = true) →
      (∀ c ∈ port, Char.isDigit c = true) →
      containsLower passwordChars
        (db ++ ':' :: '/' :: '/' ::
          (user ++ ':' :: (pw ++ '@' :: (host ++ ':' :: port)))) = false →
      maskSensitiveData (String.mk (db ++ ':' :: '/' :: '/' ::
          (user ++ ':' :: (pw ++ '@' :: (host ++ ':' :: port))))) =
        String.mk (db ++ [':', '/', '/'] ++ user ++ [':', '*', '*', '*', '@']
            ++ host ++ [':'] ++ port) := by
  constructor
  · decide
  · intro db user pw host port hdb huser hpw hhost hport hdbc huserc hpwc
      hhostc hportc hguard
    have hmatch := matchUrlAt_exact db user pw host port hdb huser hpw hhost
      hport hdbc huserc hpwc hhostc hportc
    have hne : (db ++ ':' :: '/' :: '/' ::
        (user ++ ':' :: (pw ++ '@' :: (host ++ ':' :: port)))) ≠ [] := by
      cases db with
      | nil => exact absurd rfl hdb
      | cons c cs => simp
    simp only [maskSensitiveData]
    rw [hguard]
    simp only [Bool.false_eq_true, if_false]
    rw [urlSubAux_exact _ _ _ hmatch hne (List.length_pos.mpr hne)]

/-- C5 witness: the reference connection string of the spec, with segments
`driver`, `user`, `pw`, `host`, `5432`. -/
theorem spec_c5_masking_witness :
    maskSensitiveData (String.mk ("driver".data ++ ':' :: '/' :: '/' ::
        ("user".data ++ ':' :: ("pw".data ++ '@' ::
          ("host".data ++ ':' :: "5432".data))))) =
      String.mk ("driver".data ++ [':', '/', '/'] ++ "user".data
        ++ [':', '*', '*', '*', '@'] ++ "host".data ++ [':'] ++ "5432".data) :=
  spec_c5_masking_amended.2 "driver".data "user".data "pw".data "host".data
    "5432".data (by decide) (by decide) (by decide) (by decide) (by decide)
    (by decide) (by decide) (by decide) (by decide) (by decide) (by decide)

/-- The OTEL exception exit preserves the once-ended invariant and ends
the span. -/
theorem otelUseSpanExitExn_once (e : String) (s : MSpan)
    (h : spanEndedOnce s) :
    (otelUseSpanExitExn e s).ended = true ∧
      (otelUseSpanExitExn e s).timesEnded = 1 := by
  unfold otelUseSpanExitExn
  split
  · have h3 := setStatus_frame (s.recordExc e false) ⟨.error, some e⟩
    have h4 := recordExc_frame s e false
    apply endIt_once
    rcases h with ⟨a1, a2⟩ | ⟨a1, a2⟩
    · exact Or.inl ⟨h3.1.trans (h4.1.trans a1), h3.2.1.trans (h4.2.1.trans a2)⟩
    · exact Or.inr ⟨h3.1.trans (h4.1.trans a1), h3.2.1.trans (h4.2.1.trans a2)⟩
  · exact endIt_once _ h

/-- C6 counterexample: a `span_context` block that completes normally
leaves the span status UNSET — neither `span_context` nor the OTEL context
manager ever sets OK, contradicting the claimed ok status. -/
theorem spec_c6_normal_status_counterexample :
    (spanContextRun true [] Option.none []).1.status.code = OStatusCode.unset ∧
      OStatusCode.unset ≠ OStatusCode.ok := by
  exact ⟨rfl, by decide⟩

/-- C6 (amended): a span entered via `span_context` is ended exactly once
on every exit path; when the block completes normally the status is
whatever the block itself set (UNSET when it set none — not ok); when the
block raises with exception recording enabled and the block neither ended
the span nor set its status to ok, the final status is error with the
exception recorded as an event; and the `otel_span` mutators leave an
already-ended span unchanged. -/
theorem spec_c6_span_lifecycle_amended (recordException : Bool)
    (ops : List BodyOp) (exn : Option String)
    (frameAttrs : List (String × String)) :
    ((spanContextRun recordException ops exn frameAttrs).1.ended = true ∧
      (spanContextRun recordException ops exn frameAttrs).1.timesEnded = 1) ∧
    (exn = Option.none →
      (spanContextRun recordException ops exn frameAttrs).1.status =
        (ops.foldl applyBodyOp MSpan.fresh).status) ∧
    (∀ e, exn = some e → recordException = true →
      (ops.foldl applyBodyOp MSpan.fresh).ended = false →
      (ops.foldl applyBodyOp MSpan.fresh).status.code ≠ .ok →
      (spanContextRun recordException ops exn frameAttrs).1.status =
          ⟨.error, some e⟩ ∧
        SpanEvent.excEvent e true ∈
          (spanContextRun recordException ops exn frameAttrs).1.events) ∧
    (∀ (sp : MSpan) (k v n : String) (st : Option OStatus),
      sp.ended = true →
      setSpanAttributeFn k v sp = sp ∧ addSpanEventFn n sp = sp ∧
        endSpanFn st sp = sp) := by
  have hinv : spanEndedOnce (ops.foldl applyBodyOp MSpan.fresh) :=
    bodyFold_once ops
  refine ⟨?_, ?_, ?_, ?_⟩
  · cases exn with
    | none =>
      simp only [spanContextRun]
      exact endIt_once _ hinv
    | some e =>
      cases recordException with
      | true =>
        have hfr := recordExceptionOnSpanFn_frame e true frameAttrs
          (ops.foldl applyBodyOp MSpan.fresh)
        have hinv2 : spanEndedOnce (recordExceptionOnSpanFn e true frameAttrs
            (ops.foldl applyBodyOp MSpan.fresh)) := by
          rcases hinv with ⟨a1, a2⟩ | ⟨a1, a2⟩
          · exact Or.inl ⟨hfr.1.trans a1, hfr.2.trans a2⟩
          · exact Or.inr ⟨hfr.1.trans a1, hfr.2.trans a2⟩
        exact otelUseSpanExitExn_once e _ hinv2
      | false =>
        have h3 := setStatus_frame (ops.foldl applyBodyOp MSpan.fresh)
          ⟨.error, some e⟩
        have hinv2 : spanEndedOnce ((ops.foldl applyBodyOp
            MSpan.fresh).setStatus ⟨.error, some e⟩) := by
          rcases hinv with ⟨a1, a2⟩ | ⟨a1, a2⟩
          · exact Or.inl ⟨h3.1.trans a1, h3.2.1.trans a2⟩
          · exact Or.inr ⟨h3.1.trans a1, h3.2.1.trans a2⟩
        exact otelUseSpanExitExn_once e _ hinv2
  · intro he
    subst he
    simp only [spanContextRun]
    exact (endIt_frame _).1
  · intro e he hre hended hok
    subst he
    subst hre
    simp only [spanContextRun, if_pos]
    obtain ⟨r1, r2, r3⟩ := recordExceptionOnSpanFn_spec e frameAttrs
      (ops.foldl applyBodyOp MSpan.fresh) hended hok
    have hok2 : (recordExceptionOnSpanFn e true frameAttrs
        (ops.foldl applyBodyOp MSpan.fresh)).status.code ≠ .ok := by
      rw [r1]
      exact fun hcontra => nomatch hcontra
    obtain ⟨x1, x2⟩ := otelUseSpanExitExn_spec e
      (recordExceptionOnSpanFn e true frameAttrs
        (ops.foldl applyBodyOp MSpan.fresh)) r2 hok2
    exact ⟨x1, x2 _ r3⟩
  · intro sp k v n st hsp
    refine ⟨?_, ?_, ?_⟩
    · simp [setSpanAttributeFn, MSpan.isRecording, hsp]
    · simp [addSpanEventFn, MSpan.isRecording, hsp]
    · simp [endSpanFn, MSpan.isRecording, hsp]

/-- C6 witness: a body that sets one attribute and then raises. -/
theorem spec_c6_span_lifecycle_witness :
    (spanContextRun true [BodyOp.setAttr "k" "v"] (some "boom") []).1.ended
        = true ∧
    (spanContextRun true [BodyOp.setAttr "k" "v"] (some "boom") []).1.status
        = ⟨.error, some "boom"⟩ :=
  have h := spec_c6_span_lifecycle_amended true [BodyOp.setAttr "k" "v"]
    (some "boom") []
  ⟨h.1.1, (h.2.2.1 "boom" rfl rfl (by decide) (by decide)).1⟩

/-- C7 counterexample: a payload that has an `id` field (value 0) and an
over-long/newline string field is dropped entirely — the formatted object
reaches the registry but `register_object` discards falsy ids, so the
object is not registered, contradicting the claim that it still is. -/
theorem spec_c7_falsy_id_counterexample :
    coreRegisterObject true (some "t")
        (some (RawObj.dict [("id", PyVal.int 0), ("note", PyVal.str "a\nb")]))
        [] RegistryState.empty = .ok RegistryState.empty ∧
      getObjectsForContext (some "t") Option.none RegistryState.empty = [] := by
  exact ⟨rfl, rfl⟩

/-- C7 (amended): a payload without an `id` field is dropped (state
unchanged, so it never appears in `get_objects_for_context`); a payload
with a truthy `id` and a string field longer than 1024 characters or
containing a newline or carriage return has that field omitted from the
stored fields while the object itself is registered and appears in the
results for the current trace. -/
theorem spec_c7_registration_amended (entries : List (String × PyVal))
    (tid : String) (st : RegistryState) :
    (dictHas entries "id" = false →
      coreRegisterObject true (some tid) (some (.dict entries)) [] st = .ok st) ∧
    (∀ k s, (entries.map Prod.fst).Nodup →
      ((dictGet entries "id").getD .none).truthy = true →
      (k, PyVal.str s) ∈ entries → k ≠ "name" → k ≠ "id" →
      (1024 < s.length ∨ s.data.contains '\n' = true ∨
        s.data.contains '\x0d' = true) →
      tid ≠ "" →
      formatObject (.dict entries) = some (dictFormatted entries) ∧
      coreRegisterObject true (some tid) (some (.dict entries)) [] st =
        .ok (attachToContext (some tid) (dictFormatted entries) st) ∧
      (∀ w, (k, w) ∉ (dictFormatted entries).fields) ∧
      dictFormatted entries ∈ getObjectsForContext (some tid) Option.none
        (attachToContext (some tid) (dictFormatted entries) st)) := by
  constructor
  · intro hno
    simp [coreRegisterObject, formatObject, hno]
  · intro k s hnd htru hmem hk1 hk2 hbad htid
    have hhas : dictHas entries "id" = true := by
      unfold dictHas
      cases hg : dictGet entries "id" with
      | none => rw [hg] at htru; cases htru
      | some v => rfl
    have hfmt : formatObject (.dict entries) = some (dictFormatted entries) := by
      simp [formatObject, hhas, dictFormatted]
    refine ⟨hfmt, ?_, ?_, ?_⟩
    · simp [coreRegisterObject, hfmt]
    · refine formatObjectFields_not_mem k entries [] ?_ (by simp)
      intro v hv
      have hveq : v = PyVal.str s := nodupKeys_eq entries hnd hv hmem
      subst hveq
      right; right
      rcases hbad with hb | hb | hb
      · simp [formatField, PyVal.truthy, Nat.not_le.mpr hb]
      · have hb2 : '\n' ∈ s.data := by simpa using hb
        simp [formatField, PyVal.truthy, hb2]
      · have hb2 : '\x0d' ∈ s.data := by simpa using hb
        simp [formatField, PyVal.truthy, hb2]
    · have htru2 : (dictFormatted entries).id.truthy = true := htru
      obtain ⟨hobj, hctx⟩ := registryRegisterObject_stores tid
        (dictFormatted entries) st htru2 htid
      obtain ⟨ho, hc⟩ := attachToContext_registry (some tid)
        (dictFormatted entries) st
      unfold getObjectsForContext
      simp only [htid, if_neg, if_false]
      rw [hc, ho]
      exact List.mem_filterMap.mpr ⟨(dictFormatted entries).id, hctx, hobj⟩

/-- C7 witness: a payload with id `"o1"` and a field holding a newline. -/
theorem spec_c7_registration_witness :
    dictFormatted [("id", PyVal.str "o1"), ("note", PyVal.str "x\ny")] ∈
      getObjectsForContext (some "t") Option.none
        (attachToContext (some "t")
          (dictFormatted [("id", PyVal.str "o1"), ("note", PyVal.str "x\ny")])
          RegistryState.empty) :=
  ((spec_c7_registration_amended
      [("id", PyVal.str "o1"), ("note", PyVal.str "x\ny")] "t"
      RegistryState.empty).2 "note" "x\ny" (by decide) (by decide) (by decide)
      (by decide) (by decide) (Or.inr (Or.inl (by decide))) (by decide)).2.2.2

/-- C8: `register_object` on an initialized manager, called with a keyword
argument whose value is a primitive (an `int`), raises `AttributeError`
from the `value._kwarg_key = key` assignment instead of logging and
skipping — evaluating the embedded code at the failing input. -/
theorem spec_c8_kwargs_attribute_error :
    coreRegisterObject true Option.none Option.none
        [("count", RawObj.obj "int" Option.none false Option.none)]
        RegistryState.empty = .error PyExn.attributeError := by
  rfl

/-- C9 counterexample: `init` tests `project_name is not None`, not
non-emptiness — supplying an EMPTY project name on an already initialized
manager is not a no-op: it resets and re-resolves the configuration (here
the previously resolved API key "k" is lost, since neither the new call
nor the environment supplies one). -/
theorem spec_c9_empty_name_counterexample :
    ({ CoreState.fresh with
          initialized := true
          apiKey := some "k"
          flushTimer := true
          projectName := some "svc" } : CoreState).apiKey
      = some "k" ∧
    (coreInit { CoreState.fresh with
          initialized := true
          apiKey := some "k"
          flushTimer := true
          projectName := some "svc" }
      { projectName := some "" } {}).toOption.map CoreState.apiKey
      = some Option.none ∧
    some Option.none ≠ some (some "k") := by
  refine ⟨rfl, rfl, by simp⟩

/-- C9 (amended): on an already initialized manager, `init` with no
project name is a no-op leaving the state untouched; with ANY supplied
project name (the check is `is not None`, so the empty string counts) it
resets — clearing the initialized flag and stopping the flush timer — and
then runs the full setup, after which the state carries the new project
name, a freshly resolved API key, the initialized flag, and a running
flush timer. -/
theorem spec_c9_reinit_on_project_name (s : CoreState) (a : InitArgs)
    (env : CoreEnv) (hinit : s.initialized = true) :
    (a.projectName = Option.none → coreInit s a env = .ok s) ∧
    (∀ p, a.projectName = some p →
      coreInit s a env =
        coreFullSetup { coreReset s with projectName := some p } a env ∧
      (coreReset s).initialized = false ∧ (coreReset s).flushTimer = false ∧
      (∀ s', coreInit s a env = .ok s' →
        s'.projectName = some p ∧ s'.apiKey = resolveApiKey a.apiKey env ∧
        s'.initialized = true ∧ s'.flushTimer = true)) := by
  constructor
  · intro hp
    simp [coreInit, hp, hinit]
  · intro p hp
    have hred : coreInit s a env =
        coreFullSetup { coreReset s with projectName := some p } a env := by
      simp [coreInit, hp, coreReset]
    refine ⟨hred, rfl, rfl, ?_⟩
    intro s' hs'
    rw [hred] at hs'
    have := coreFullSetup_fields _ a env s' hs'
    exact ⟨this.1, this.2.1, this.2.2.1, this.2.2.2⟩

/-- C9 witness: no-op on an initialized manager without a project name,
and the reinitialize path at project name `"svc2"`. -/
theorem spec_c9_reinit_witness :
    coreInit { CoreState.fresh with
          initialized := true
          apiKey := some "k"
          flushTimer := true
          projectName := some "svc" } {} {} =
      .ok { CoreState.fresh with
          initialized := true
          apiKey := some "k"
          flushTimer := true
          projectName := some "svc" } ∧
    coreInit { CoreState.fresh with
          initialized := true
          apiKey := some "k"
          flushTimer := true
          projectName := some "svc" }
      { projectName := some "svc2" } {} =
      coreFullSetup { coreReset { CoreState.fresh with
            initialized := true
            apiKey := some "k"
            flushTimer := true
            projectName := some "svc" } with projectName := some "svc2" } { projectName := some "svc2" } {} :=
  have h := spec_c9_reinit_on_project_name
    { CoreState.fresh with
        initialized := true
        apiKey := some "k"
        flushTimer := true
        projectName := some "svc" }
    { projectName := some "svc2" } {} rfl
  have h0 := spec_c9_reinit_on_project_name
    { CoreState.fresh with
        initialized := true
        apiKey := some "k"
        flushTimer := true
        projectName := some "svc" } {} {} rfl
  ⟨h0.1 rfl, (h.2 "svc2" rfl).1⟩

/-- C10: a field of an accepted type but falsy value — the integer 0, the
float 0.0, the boolean False, or the empty string — passes `_format_field`
unchanged (it is validated), yet is omitted from the stored fields because
inclusion is gated on truthiness (`if field_value:`), not on non-None. -/
theorem spec_c10_falsy_fields_omitted (entries : List (String × PyVal))
    (k : String) (v : PyVal) (hmem : (k, v) ∈ entries)
    (hnd : (entries.map Prod.fst).Nodup)
    (hk1 : k ≠ "name") (hk2 : k ≠ "id")
    (hv : v = PyVal.int 0 ∨ v = PyVal.float 0 ∨ v = PyVal.bool false ∨
      v = PyVal.str "") :
    formatField k v = v ∧ (formatField k v).truthy = false ∧
    ∀ f, formatObject (.dict entries) = some f → ∀ w, (k, w) ∉ f.fields := by
  have hval : formatField k v = v ∧ (formatField k v).truthy = false := by
    rcases hv with hv | hv | hv | hv <;> subst hv <;>
      exact ⟨by simp [formatField], by simp [formatField, PyVal.truthy]⟩
  refine ⟨hval.1, hval.2, ?_⟩
  intro f hf w
  have hfields : f.fields = formatObjectFields entries [] := by
    by_cases hhas : dictHas entries "id" = true
    · simp only [formatObject, hhas, not_true, Bool.not_true,
        Bool.false_eq_true, if_false, reduceIte, Option.some.injEq] at hf
      rw [← hf]
    · simp [formatObject, hhas] at hf
  rw [hfields]
  refine formatObjectFields_not_mem k entries [] ?_ (by simp) w
  intro v' hv'
  have : v' = v := nodupKeys_eq entries hnd hv' hmem
  subst this
  exact Or.inr (Or.inr hval.2)

/-- C10 witness: the integer 0 under key `"count"` alongside id `"a"`. -/
theorem spec_c10_falsy_fields_witness :
    formatField "count" (PyVal.int 0) = PyVal.int 0 ∧
    (formatField "count" (PyVal.int 0)).truthy = false :=
  have h := spec_c10_falsy_fields_omitted
    [("id", PyVal.str "a"), ("count", PyVal.int 0)] "count" (PyVal.int 0)
    (by decide) (by decide) (by decide) (by decide) (Or.inl rfl)
  ⟨h.1, h.2.1⟩
